import Mathlib

/-!
Verification of the structural analyzer and semantic formatter of
`config-rom-pretty-printer.c` (linux-firewire-utils).

The C program consumes a buffer of at most 1024 bytes.  All reads of
32-bit fields happen at byte offsets that are multiples of 4, through
`((uint32_t *)(data + offset))[0]`.  We therefore model the buffer as a
total function `q : Nat → Nat` from quadlet index to quadlet value
(reduced mod 2^32 at each read, matching the width of `uint32_t`), and
keep the byte length `L` of the input separate.  Reads beyond `L` model
the indeterminate tail of the fixed C array `uint8_t data[1024]`, which
the program may legitimately read after truncated input.
-/

def U32_MOD : Nat := 4294967296

/-- A 32-bit load at a byte offset that is a multiple of four:
`((uint32_t *)(data + offset))[0]`. -/
def readQ (q : Nat → Nat) (offset : Nat) : Nat :=
  q (offset / 4) % U32_MOD

/-- `enum ieee1212_block_type`. -/
inductive BlockType
  | busInfo
  | rootDirectory
  | leaf
  | directory
  | orphan
deriving DecidableEq, Repr

/-- `struct ieee1212_block`.  The `content` pointer of the C struct is
`data + offset`, so it is fully determined by `offset`; the union member
`key_id`/`parent` is meaningful for leaf and directory blocks and the
parent pointer is represented by the parent block's offset (block
offsets are unique in the discovered set). -/
structure Ieee1212Block where
  offset : Nat
  length : Nat
  block_type : BlockType
  key_id : Nat := 0
  parent : Option Nat := none
deriving DecidableEq, Repr

/-- Inner walk of `insert_block_by_offset`: the cursor advances while the
next element's offset is not greater than the new entry's offset, and the
entry is inserted after the cursor. -/
def insertTail (entry : Ieee1212Block) : List Ieee1212Block → List Ieee1212Block
  | [] => [entry]
  | peek :: rest =>
    if entry.offset < peek.offset then entry :: peek :: rest
    else peek :: insertTail entry rest

/-- `insert_block_by_offset`: into an empty list the entry becomes the
head; otherwise it is inserted after the last existing element whose
offset is `≤` the entry's offset (never before the first element). -/
def insert_block_by_offset (head : List Ieee1212Block) (entry : Ieee1212Block) :
    List Ieee1212Block :=
  match head with
  | [] => [entry]
  | first :: rest => first :: insertTail entry rest

def IEEE1212_BUS_INFO_BLOCK_LENGTH_MASK : Nat := 0xff000000
def IEEE1212_BUS_INFO_BLOCK_LENGTH_SHIFT : Nat := 24
def IEEE1212_BUS_INFO_CRC_LENGTH_MASK : Nat := 0x00ff0000
def IEEE1212_BUS_INFO_CRC_LENGTH_SHIFT : Nat := 16
def IEEE1212_BUS_INFO_CRC_MASK : Nat := 0x0000ffff

/-- `detect_ieee1212_bus_info_block_length`.  Note the C expression
`4 * (quadlet & MASK) >> SHIFT`: by precedence this is
`(4 * (quadlet & MASK)) >> SHIFT`, and the product is computed in
`unsigned int`, i.e. mod 2^32, before the shift.  `none` models the
`-EINVAL` return. -/
def detect_ieee1212_bus_info_block_length (q : Nat → Nat) (L : Nat) (offset : Nat) :
    Option Nat :=
  let quadlet := readQ q 0
  let block_length :=
    4 + ((4 * (quadlet &&& IEEE1212_BUS_INFO_BLOCK_LENGTH_MASK)) % U32_MOD) >>>
      IEEE1212_BUS_INFO_BLOCK_LENGTH_SHIFT
  if L < offset + block_length then none else some block_length

def IEEE1212_BLOCK_LENGTH_MASK : Nat := 0xffff0000
def IEEE1212_BLOCK_LENGTH_SHIFT : Nat := 16
def IEEE1212_BLOCK_CRC_MASK : Nat := 0x0000ffff

/-- `detect_ieee1212_block_length`, with the same precedence/overflow
shape as the bus-info variant. -/
def detect_ieee1212_block_length (q : Nat → Nat) (L : Nat) (offset : Nat) :
    Option Nat :=
  let quadlet := readQ q offset
  let block_length :=
    4 + ((4 * (quadlet &&& IEEE1212_BLOCK_LENGTH_MASK)) % U32_MOD) >>>
      IEEE1212_BLOCK_LENGTH_SHIFT
  if L < offset + block_length then none else some block_length

/-- `detect_ieee1212_bus_info_block` (allocation failure aside, it just
inserts the descriptor). -/
def detect_ieee1212_bus_info_block (offset block_length : Nat)
    (head : List Ieee1212Block) : List Ieee1212Block :=
  insert_block_by_offset head
    { offset := offset, length := block_length, block_type := .busInfo }

/-- `detect_ieee1212_leaf_block`: an offset already present in the set is
skipped, otherwise the descriptor is inserted. -/
def detect_ieee1212_leaf_block (block_offset block_length key_id : Nat)
    (parent : Option Nat) (head : List Ieee1212Block) : List Ieee1212Block :=
  if head.any (fun e => e.offset == block_offset) then head
  else
    insert_block_by_offset head
      { offset := block_offset, length := block_length, block_type := .leaf,
        key_id := key_id, parent := parent }

def DIRECTORY_ENTRY_KEY_TYPE_MASK : Nat := 0xc0000000
def DIRECTORY_ENTRY_KEY_TYPE_SHIFT : Nat := 30
def DIRECTORY_ENTRY_KEY_ID_MASK : Nat := 0x3f000000
def DIRECTORY_ENTRY_KEY_ID_SHIFT : Nat := 24
def DIRECTORY_ENTRY_VALUE_MASK : Nat := 0x00ffffff

def KEY_TYPE_IMMEDIATE : Nat := 0
def KEY_TYPE_CSR_OFFSET : Nat := 1
def KEY_TYPE_LEAF : Nat := 2
def KEY_TYPE_DIRECTORY : Nat := 3

/-- `decode_directory_entry`: `(key_type, key_id, value)`. -/
def decode_directory_entry (quadlet : Nat) : Nat × Nat × Nat :=
  ((quadlet &&& DIRECTORY_ENTRY_KEY_TYPE_MASK) >>> DIRECTORY_ENTRY_KEY_TYPE_SHIFT,
   (quadlet &&& DIRECTORY_ENTRY_KEY_ID_MASK) >>> DIRECTORY_ENTRY_KEY_ID_SHIFT,
   quadlet &&& DIRECTORY_ENTRY_VALUE_MASK)

/-- Result of the recursive discovery.  `err` collects the fatal C error
returns (`-EINVAL`, `-ENOSPC`); `outOfFuel` is the marker of the
explicit recursion-depth fuel of the shallow embedding (the C code has
no such bound; claim C10 shows fuel `L / 4 + 1` is never exhausted). -/
inductive DetectResult
  | ok (head : List Ieee1212Block)
  | err
  | outOfFuel
deriving DecidableEq, Repr

/-- The entry loop of `detect_ieee1212_directory_entries`, parametrised
by the handler `detect_dir` used for `KEY_TYPE_DIRECTORY` children (the
recursive call at one less fuel).  `i` is the running index, `n` the
number of entries still to process; the C loop runs
`i = 0 .. (directory_length - 4) / 4 - 1` over entries at
`directory_offset + 4 + 4 * i`. -/
def detect_ieee1212_directory_entries_go
    (detect_dir : Nat → Nat → Nat → Option Nat → List Ieee1212Block → DetectResult)
    (q : Nat → Nat) (L : Nat) (directory_offset : Nat) (parent : Option Nat) :
    Nat → Nat → List Ieee1212Block → DetectResult
  | _, 0, head => .ok head
  | i, n + 1, head =>
    let entry_offset := directory_offset + 4 + i * 4
    let d := decode_directory_entry (readQ q entry_offset)
    let key_type := d.1
    let key_id := d.2.1
    let value := d.2.2
    if key_type = KEY_TYPE_LEAF ∨ key_type = KEY_TYPE_DIRECTORY then
      let block_offset := entry_offset + 4 * value
      if L ≤ block_offset then .err
      else
        match detect_ieee1212_block_length q L block_offset with
        | none => .err
        | some block_length =>
          if key_type = KEY_TYPE_LEAF then
            detect_ieee1212_directory_entries_go detect_dir q L directory_offset
              parent (i + 1) n
              (detect_ieee1212_leaf_block block_offset block_length key_id parent head)
          else
            match detect_dir block_offset block_length key_id parent head with
            | .ok head2 =>
              detect_ieee1212_directory_entries_go detect_dir q L directory_offset
                parent (i + 1) n head2
            | r => r
    else
      detect_ieee1212_directory_entries_go detect_dir q L directory_offset
        parent (i + 1) n head

/-- `detect_ieee1212_directory_block`: skip when the offset is already in
the set; otherwise insert the descriptor and process its entries, with
the new block as the parent of its children.  The fuel counts directory
nesting depth. -/
def detect_ieee1212_directory_block :
    Nat → (Nat → Nat) → Nat → Nat → Nat → Nat → Option Nat → List Ieee1212Block →
      DetectResult
  | 0, _, _, _, _, _, _, _ => .outOfFuel
  | fuel + 1, q, L, block_offset, block_length, key_id, parent, head =>
    if head.any (fun e => e.offset == block_offset) then .ok head
    else
      detect_ieee1212_directory_entries_go
        (fun off len kid par h => detect_ieee1212_directory_block fuel q L off len kid par h)
        q L block_offset (some block_offset) 0 ((block_length - 4) / 4)
        (insert_block_by_offset head
          { offset := block_offset, length := block_length,
            block_type := .directory, key_id := key_id, parent := parent })

/-- `detect_ieee1212_root_directory_block`. -/
def detect_ieee1212_root_directory_block (fuel : Nat) (q : Nat → Nat) (L : Nat)
    (block_offset block_length : Nat) (head : List Ieee1212Block) : DetectResult :=
  detect_ieee1212_directory_entries_go
    (fun off len kid par h => detect_ieee1212_directory_block fuel q L off len kid par h)
    q L block_offset (some block_offset) 0 ((block_length - 4) / 4)
    (insert_block_by_offset head
      { offset := block_offset, length := block_length, block_type := .rootDirectory })

/-- `detect_ieee1212_blocks`: bus-info block at offset 0, then the root
directory right after it, then the recursive walk. -/
def detect_ieee1212_blocks (fuel : Nat) (q : Nat → Nat) (L : Nat) : DetectResult :=
  match detect_ieee1212_bus_info_block_length q L 0 with
  | none => .err
  | some block_length =>
    let head := detect_ieee1212_bus_info_block 0 block_length []
    match detect_ieee1212_block_length q L block_length with
    | none => .err
    | some block_length2 =>
      detect_ieee1212_root_directory_block fuel q L block_length block_length2 head

/-- `normalize_blocks`: clamp each block's length so that it does not
run into the next block's offset (or past the buffer end for the tail
block). -/
def normalize_blocks (L : Nat) : List Ieee1212Block → List Ieee1212Block
  | [] => []
  | entry :: rest =>
    let next_offset := match rest with | [] => L | peek :: _ => peek.offset
    (if next_offset < entry.offset + entry.length then
      { entry with length := next_offset - entry.offset }
     else entry) :: normalize_blocks L rest

/-- `fulfill_orphan_blocks`: whenever a block ends before the next
block's offset (or before the buffer end for the tail), an orphan block
covering exactly the gap is inserted after it; the C loop then re-examines
the same element, finds it flush against the new orphan, and advances, so
one orphan per gap is materialised in place. -/
def fulfill_orphan_blocks (L : Nat) : List Ieee1212Block → List Ieee1212Block
  | [] => []
  | [entry] =>
    if L ≤ entry.offset + entry.length then [entry]
    else
      [entry,
       { offset := entry.offset + entry.length,
         length := L - (entry.offset + entry.length), block_type := .orphan }]
  | entry :: peek :: rest =>
    if peek.offset ≤ entry.offset + entry.length then
      entry :: fulfill_orphan_blocks L (peek :: rest)
    else
      entry ::
        { offset := entry.offset + entry.length,
          length := peek.offset - (entry.offset + entry.length),
          block_type := .orphan } ::
        fulfill_orphan_blocks L (peek :: rest)

/-- `bus_info_block_is_big_endian`: reads quadlet index `offset + 1`
(the call site passes `offset = 0`) and compares it with the literal
`0x1394`. -/
def bus_info_block_is_big_endian (q : Nat → Nat) (L : Nat) (offset : Nat) : Bool :=
  let quadlet := q (offset + 1) % U32_MOD
  quadlet == 0x1394

/-- Body of the inner `for (shift = 28; shift >= 0; shift -= 4)` loop of
`compute_itu_t_crc_16`. -/
def crc_itu_t_step (quadlet crc shift : Nat) : Nat :=
  let sum := ((crc >>> 12) ^^^ (quadlet >>> shift)) &&& 0x0000000f
  ((crc <<< 4) ^^^ (sum <<< 12) ^^^ (sum <<< 5) ^^^ sum) &&& 0x0000ffff

/-- One iteration of the outer loop of `compute_itu_t_crc_16`: fold one
quadlet, nibble by nibble, into the running CRC. -/
def crc_itu_t_quadlet (crc quadlet : Nat) : Nat :=
  [28, 24, 20, 16, 12, 8, 4, 0].foldl (crc_itu_t_step quadlet) crc

/-- `compute_itu_t_crc_16` over a run of quadlets. -/
def compute_itu_t_crc_16 (quadlets : List Nat) : Nat :=
  quadlets.foldl crc_itu_t_quadlet 0

/-- The decision made by `format_block_metadata` about the
`" (should be N)"` annotation: the stored 16-bit CRC of the header
quadlet is compared with the CRC computed over `quadlet_count - 1`
quadlets following the header, where the list passed in holds the
block's `length / 4` quadlets.  `some n` means the annotation
`"(should be n)"` is emitted. -/
def format_block_metadata_should_be (quadlets : List Nat) : Option Nat :=
  match quadlets with
  | [] => none
  | q0 :: rest =>
    let block_crc := q0 &&& IEEE1212_BLOCK_CRC_MASK
    let actual_block_crc := compute_itu_t_crc_16 rest
    if block_crc ≠ actual_block_crc then some actual_block_crc else none

/-- The quadlets a block hands to its formatter: `length / 4` 32-bit
words starting at `content = data + offset`. -/
def block_quadlets (q : Nat → Nat) (b : Ieee1212Block) : List Nat :=
  (List.range (b.length / 4)).map (fun i => readQ q (b.offset + 4 * i))

/-- Invariant of the discovery set: nonempty with first block at offset
0, offsets strictly ascending, every block starting below the buffer end
and of positive length. -/
def GoodHead (L : Nat) (head : List Ieee1212Block) : Prop :=
  (∃ b t, head = b :: t ∧ b.offset = 0) ∧
  head.Pairwise (fun a b => a.offset < b.offset) ∧
  ∀ b ∈ head, b.offset < L ∧ 0 < b.length

/-- Every offset occupied in `h1` is occupied in `h2`. -/
def offsetsSub (h1 h2 : List Ieee1212Block) : Prop :=
  ∀ b ∈ h1, ∃ b2 ∈ h2, b2.offset = b.offset

/-- Quadlet-aligned offsets below `L` not yet occupied by a block: the
budget that bounds the depth of the directory recursion. -/
def freeQuadletSlots (L : Nat) (head : List Ieee1212Block) : List Nat :=
  (List.range ((L + 3) / 4)).filter (fun j => !(head.any (fun b => b.offset == 4 * j)))

/-- Executable tiling check: the first block sits at `s`, each block is
flush against the next, and the last block ends exactly at `L`. -/
def tilesB (s L : Nat) : List Ieee1212Block → Bool
  | [] => s == L
  | b :: bs => b.offset == s && tilesB (b.offset + b.length) L bs

/-- State after normalization: every block has positive length and ends
at or before the next block's offset (the buffer end for the tail). -/
def Fits (L : Nat) : List Ieee1212Block → Prop
  | [] => True
  | [b] => b.offset + b.length ≤ L ∧ 0 < b.length ∧ b.offset < L
  | b :: b2 :: t => b.offset + b.length ≤ b2.offset ∧ 0 < b.length ∧ Fits L (b2 :: t)

/-- Key ids of the generic CSR (IEEE 1212) table. -/
def KEY_ID_CSR_DESCRIPTOR : Nat := 0x01
def KEY_ID_CSR_BUS_DEP_INFO : Nat := 0x02
def KEY_ID_CSR_VENDOR_INFO : Nat := 0x03
def KEY_ID_CSR_HARDWARE_VERSION : Nat := 0x04
def KEY_ID_CSR_MODULE_INFO : Nat := 0x07
def KEY_ID_CSR_NODE_CAPS : Nat := 0x0c
def KEY_ID_CSR_EUI_64 : Nat := 0x0d
def KEY_ID_CSR_UNIT : Nat := 0x11
def KEY_ID_CSR_SPECIFIER_ID : Nat := 0x12
def KEY_ID_CSR_VERSION : Nat := 0x13
def KEY_ID_CSR_DEP_INFO : Nat := 0x14
def KEY_ID_CSR_UNIT_LOCATION : Nat := 0x15
def KEY_ID_CSR_MODEL : Nat := 0x17
def KEY_ID_CSR_INSTANCE : Nat := 0x18
def KEY_ID_CSR_KEYWORD : Nat := 0x19
def KEY_ID_CSR_FEATURE : Nat := 0x1a
def KEY_ID_CSR_MODIFIABLE_DESC : Nat := 0x1f
def KEY_ID_CSR_DIRECTORY_ID : Nat := 0x20

/-- The initial `switch (directory->data.directory.key_id)` of
`format_directory_block` choosing the starting block `base` of the
spec-identifier accumulation.  The C switch has no `default` assignment:
for any key id outside the enumerated set, `base` is left uninitialized
and the subsequent `while (base != NULL)` loop reads an indeterminate
pointer.  The outer `none` models that uninitialized case. -/
def format_directory_block_base (directory : Ieee1212Block) : Option (Option Nat) :=
  if directory.key_id = KEY_ID_CSR_VENDOR_INFO ∨
     directory.key_id = KEY_ID_CSR_MODULE_INFO ∨
     directory.key_id = KEY_ID_CSR_DESCRIPTOR ∨
     directory.key_id = KEY_ID_CSR_BUS_DEP_INFO ∨
     directory.key_id = KEY_ID_CSR_DEP_INFO ∨
     directory.key_id = KEY_ID_CSR_INSTANCE then
    some directory.parent
  else if directory.key_id = KEY_ID_CSR_UNIT ∨ directory.key_id = KEY_ID_CSR_FEATURE then
    some (some directory.offset)
  else
    none

/-- The observable effect of the early-exit paths at the top of `main`:
`isatty` → `fprintf(stderr, ...)` and `EXIT_FAILURE`; `read` returning
`length <= 0` → bare `EXIT_FAILURE` with no diagnostic.  In both cases
nothing has been printed to standard output yet.  `none` means `main`
proceeds to the pipeline. -/
structure MainEarlyOutcome where
  exit_nonzero : Bool
  stderr_diagnostic : Bool
  stdout_empty : Bool
deriving DecidableEq, Repr

def main_early_exit (is_a_tty : Bool) (read_length : Int) : Option MainEarlyOutcome :=
  if is_a_tty then
    some { exit_nonzero := true, stderr_diagnostic := true, stdout_empty := true }
  else if read_length ≤ 0 then
    some { exit_nonzero := true, stderr_diagnostic := false, stdout_empty := true }
  else
    none

-- Concrete buffers used by the code-bug evaluations below.

/-- Buffer whose quadlet index 1 holds `0x31333934` (ASCII `1394` as a
big-endian-stored bus name read natively). -/
def qAsciiTag : Nat → Nat := fun i => if i = 1 then 0x31333934 else 0x04040000

/-- Buffer whose quadlet index 1 holds the bare number `0x1394`. -/
def qHexNumber : Nat → Nat := fun i => if i = 1 then 0x1394 else 0

/-- Buffer whose first quadlet declares a bus-info length byte of
`0x41` (65 quadlets). -/
def qLen41 : Nat → Nat := fun i => if i = 0 then 0x41000000 else 0

/-- Buffer whose first quadlet declares a bus-info length byte of
`0xff` (255 quadlets). -/
def qLenFF : Nat → Nat := fun i => if i = 0 then 0xff000000 else 0

-- Tiny concrete ROM used by the witnesses: bus-info of 8 bytes and an
-- empty root directory of 4 bytes.
def qTiny : Nat → Nat := fun i => [0x01000000, 0, 0].getD i 0

/-- Buffer for the C4 counterexample: a root directory with two leaf
entries; the first leaf (at byte offset 20) declares a length of 1
quadlet but overlaps the second leaf (at byte offset 24), so
normalization truncates it to its header quadlet alone.  Its stored CRC
field is set to the CRC over the declared 1 quadlet following its
header. -/
def qC4 : Nat → Nat := fun i =>
  [0x01000000, 0, 0x00020000, 0x82000002, 0x82000002,
   0x00010000 + compute_itu_t_crc_16 [0x00000001], 0x00000001].getD i 0

----------------------------------------------------------------------
-- The semantic formatter: spec registry, key formatters and entry
-- rendering (the parts exercised by the claims).
----------------------------------------------------------------------

def IEEE1212_REGISTER_SPACE_ADDRESS : Nat := 0xfffff0000000
def IEEE1212_CONFIG_ROM_OFFSET : Nat := 0x400

def INVALID_KEY_ID : Nat := 0xff
def INVALID_KEY_VALUE : Nat := 0xffffffff
def UNSPECIFIED_ENTRY_NAME : String := "(unspecified)"

/-- `struct spec_identifier`. -/
structure SpecIdentifier where
  specifier_id : Nat
  version : Nat
deriving DecidableEq, Repr

/-- `struct key_formatter`.  Of the union of content renderers only the
`immediate` member is consulted when a directory entry line is
rendered (`format_immediate_entry`); the `leaf` and `directory` members
render whole blocks and are modelled separately at the block level
(`format_block_metadata_should_be`), so they are omitted here. -/
structure KeyFormatter where
  key_type : Nat
  key_id : Nat
  key_id_name : String
  immediate : Option (Nat → String) := none

-- printf-style helpers: `%x`-family conversions on non-negative values.

def hexString (n : Nat) : String := (Nat.toDigits 16 n).asString

def zeroPadHex (w n : Nat) : String :=
  let s := hexString n
  String.mk (List.replicate (w - s.length) '0') ++ s

def spacePadLeft (w : Nat) (s : String) : String :=
  String.mk (List.replicate (w - s.length) ' ') ++ s

/-- `%g` of `0.5 * k` for a byte-sized `k` (exact halves print either
as an integer or with a single `.5` digit). -/
def half_decimal_string (k : Nat) : String :=
  if k % 2 == 0 then toString (k / 2) else toString (k / 2) ++ ".5"

-- Immediate-value renderers, in source order.

def format_ieee1394_bus_node_capabilities_immediate_value (value : Nat) : String :=
  "per IEEE 1394"

def sbp_device_types : List String :=
  ["Disk", "Tape", "Printer", "Processor", "WORM", "CD/DVD", "Scanner", "MOD",
   "Changer", "Comm", "Prepress", "Prepress", "RAID", "Enclosure", "RBC", "OCRW",
   "Bridge", "OSD", "ADC-2"]

/-- `format_sbp_logical_unit_number_immediate_value`.  Note the C
expression `(value & 0x1f) >> 16` for `device_type` (always 0), kept
as in the source. -/
def format_sbp_logical_unit_number_immediate_value (value : Nat) : String :=
  let extended := (value &&& 0x800000) >>> 23 == 1
  let ordered := (value &&& 0x400000) >>> 22
  let isoc := (value &&& 0x200000) >>> 21 == 1
  let device_type := (value &&& 0x1f) >>> 16
  let logical_unit := value &&& 0x00ffff
  (if extended then " extended_status 1," else "") ++
  " ordered " ++ toString ordered ++ "," ++
  (if isoc then " isoch 1," else "") ++
  (if device_type < sbp_device_types.length then
    "type " ++ sbp_device_types.getD device_type "" ++ ","
   else if logical_unit == 0x1e then "type w.k.LUN,"
   else if logical_unit == 0x1f then "type unknown,"
   else "type " ++ zeroPadHex 2 device_type ++ "?,")

def format_sbp3_revision_immediate_value (value : Nat) : String :=
  toString value ++
  (if value == 0 then " = SBP-2" else if value == 1 then " = SBP-3" else "")

def format_sbp3_plug_control_register_immediate_value (value : Nat) : String :=
  let is_output := (value &&& 0x20) >>> 5 == 1
  let plug_index := value &&& 0x1f
  "plug control register: " ++ (if is_output then "o" else "i") ++ "PCR, plug_index " ++
    toString plug_index

def format_sbp_command_set_immediate_value (value : Nat) : String :=
  if value == 0x0104d8 then "SCSI Primary Commands 2 and related standards"
  else if value == 0x010001 then "AV/C"
  else ""

def format_sbp_unit_characteristic_immediate_value (value : Nat) : String :=
  let distributed_data := (value &&& 0x010000) >>> 16 == 1
  let orb_size := value &&& 0x0000ff
  (if distributed_data then "distrib. data 1, " else "") ++
  "mgt_ORB_timeout " ++ half_decimal_string ((value &&& 0x00ff00) >>> 8) ++
  "s, ORB_size " ++ toString orb_size ++ " quadlets"

def format_sbp_firmware_revision_immediate_value (value : Nat) : String :=
  zeroPadHex 6 value

def format_sbp_reconnect_timeout_immediate_value (value : Nat) : String :=
  "reconnect timeout: max_reconnect_hold " ++ toString (1 + (value &&& 0x00ffff)) ++ "s"

def format_sbp3_fast_start_immediate_value (value : Nat) : String :=
  let max_payload := (value &&& 0x00ff00) >>> 8
  let fast_start_offset := value &&& 0x0000ff
  (if 0 < max_payload then
    " max_payload " ++ toString (max_payload <<< 2) ++ " bytes,"
   else " max_payload per max_rec,") ++
  " offset " ++ toString fast_start_offset

def format_iidc_131_unit_sub_sw_version_immediate_value (value : Nat) : String :=
  "v1.3" ++ toString (value >>> 4)

def format_iidc2_100_unit_sub_sw_version_immediate_value (value : Nat) : String :=
  "v" ++ toString (value >>> 16) ++ "." ++ toString ((value >>> 8) &&& 0xff) ++ "." ++
    toString (value &&& 0xff)

def format_dpp_111_command_set_immediate_value (value : Nat) : String :=
  if value == 0xb081f2 then "DPC"
  else if value == 0x020000 then "FTC"
  else ""

def format_dpp_111_write_transaction_interval_immediate_value (value : Nat) : String :=
  toString value ++ "ms"

def format_dpp_111_unit_sw_details_immediate_value (value : Nat) : String :=
  let major := (value &&& 0x00f00000) >>> 20
  let minor := (value &&& 0x000f0000) >>> 16
  let micro := (value &&& 0x0000f000) >>> 12
  let sdu_write_order := value &&& 1
  "v" ++ toString major ++ "." ++ toString minor ++ "." ++ toString micro ++
    ", sdu_write_order " ++ toString sdu_write_order

def format_iicp_details_immediate_value (value : Nat) : String :=
  let major := (((value &&& 0xf00000) >>> 20) &&& 0xf) * 10 + (((value &&& 0x0f0000) >>> 16) &&& 0xf)
  let minor := (((value &&& 0x00f000) >>> 12) &&& 0xf) * 10 + (((value &&& 0x000f00) >>> 8) &&& 0xf)
  "v" ++ toString major ++ "." ++ toString minor

def format_iicp_command_set_immediate_value (value : Nat) : String :=
  if value == 0x4b661f then "IICP only"
  else if value == 0xc27f10 then "IICP488"
  else ""

def format_iicp_command_set_details_immediate_value (value : Nat) : String :=
  let major := (((value &&& 0xf00000) >>> 20) &&& 0xf) * 10 + (((value &&& 0x0f0000) >>> 16) &&& 0xf)
  let minor := (((value &&& 0x00f000) >>> 12) &&& 0xf) * 10 + (((value &&& 0x000f00) >>> 8) &&& 0xf)
  "v" ++ toString major ++ "." ++ toString minor

def format_iicp_capabilities_immediate_value (value : Nat) : String :=
  let reserved_high_proto := (value &&& 0xff0000) >>> 16
  let reserved_iicp := (value &&& 0x00ffc0) >>> 6
  let ccli := (value &&& 0x000020) >>> 5
  let cmgr := (value &&& 0x000010) >>> 4
  let max_int_length_exponent := value &&& 0x00000f
  "hi proto " ++ toString reserved_high_proto ++ ", IICP " ++ toString reserved_iicp ++
  ", ccli " ++ toString ccli ++ ", cmgr " ++ toString cmgr ++
  (if 0 < max_int_length_exponent then
    "  maxIntLength " ++ toString (2 <<< max_int_length_exponent) ++ " bytes"
   else "  maxIntLength -")

def format_unspecified_immediate_value (value : Nat) : String :=
  "(immediate value)"

-- The key-formatter tables, in source order.

def csr_key_formatters : List KeyFormatter :=
  [⟨KEY_TYPE_LEAF, KEY_ID_CSR_DESCRIPTOR, "descriptor", none⟩,
   ⟨KEY_TYPE_DIRECTORY, KEY_ID_CSR_DESCRIPTOR, "descriptor", none⟩,
   ⟨KEY_TYPE_IMMEDIATE, KEY_ID_CSR_BUS_DEP_INFO, "bus dependent info", none⟩,
   ⟨KEY_TYPE_LEAF, KEY_ID_CSR_BUS_DEP_INFO, "bus dependent info", none⟩,
   ⟨KEY_TYPE_DIRECTORY, KEY_ID_CSR_BUS_DEP_INFO, "bus dependent info", none⟩,
   ⟨KEY_TYPE_IMMEDIATE, KEY_ID_CSR_VENDOR_INFO, "vendor", none⟩,
   ⟨KEY_TYPE_LEAF, KEY_ID_CSR_VENDOR_INFO, "vendor", none⟩,
   ⟨KEY_TYPE_DIRECTORY, KEY_ID_CSR_VENDOR_INFO, "vendor", none⟩,
   ⟨KEY_TYPE_IMMEDIATE, KEY_ID_CSR_HARDWARE_VERSION, "hardware version", none⟩,
   ⟨KEY_TYPE_LEAF, KEY_ID_CSR_MODULE_INFO, "module", none⟩,
   ⟨KEY_TYPE_DIRECTORY, KEY_ID_CSR_MODULE_INFO, "module", none⟩,
   ⟨KEY_TYPE_LEAF, KEY_ID_CSR_EUI_64, "eui-64", none⟩,
   ⟨KEY_TYPE_DIRECTORY, KEY_ID_CSR_UNIT, "unit", none⟩,
   ⟨KEY_TYPE_IMMEDIATE, KEY_ID_CSR_SPECIFIER_ID, "specifier id", none⟩,
   ⟨KEY_TYPE_IMMEDIATE, KEY_ID_CSR_VERSION, "version", none⟩,
   ⟨KEY_TYPE_IMMEDIATE, KEY_ID_CSR_DEP_INFO, "dependent info", none⟩,
   ⟨KEY_TYPE_CSR_OFFSET, KEY_ID_CSR_DEP_INFO, "dependent info", none⟩,
   ⟨KEY_TYPE_LEAF, KEY_ID_CSR_DEP_INFO, "dependent info", none⟩,
   ⟨KEY_TYPE_DIRECTORY, KEY_ID_CSR_DEP_INFO, "dependent info", none⟩,
   ⟨KEY_TYPE_LEAF, KEY_ID_CSR_UNIT_LOCATION, "unit location", none⟩,
   ⟨KEY_TYPE_IMMEDIATE, KEY_ID_CSR_MODEL, "model", none⟩,
   ⟨KEY_TYPE_DIRECTORY, KEY_ID_CSR_INSTANCE, "instance", none⟩,
   ⟨KEY_TYPE_LEAF, KEY_ID_CSR_KEYWORD, "keyword", none⟩,
   ⟨KEY_TYPE_DIRECTORY, KEY_ID_CSR_FEATURE, "feature", none⟩,
   ⟨KEY_TYPE_IMMEDIATE, KEY_ID_CSR_DIRECTORY_ID, "directory id", none⟩]

def ieee1394_bus_key_formatters : List KeyFormatter :=
  [⟨KEY_TYPE_IMMEDIATE, KEY_ID_CSR_NODE_CAPS, "node capabilities",
    some format_ieee1394_bus_node_capabilities_immediate_value⟩]

def incits_sbp_key_formatters : List KeyFormatter :=
  [⟨KEY_TYPE_LEAF, 0x0d, "unit unique id", none⟩,
   ⟨KEY_TYPE_IMMEDIATE, 0x14, "logical unit number",
    some format_sbp_logical_unit_number_immediate_value⟩,
   ⟨KEY_TYPE_CSR_OFFSET, 0x14, "management agent CSR", none⟩,
   ⟨KEY_TYPE_DIRECTORY, 0x14, "logical unit", none⟩,
   ⟨KEY_TYPE_IMMEDIATE, 0x21, "revision", some format_sbp3_revision_immediate_value⟩,
   ⟨KEY_TYPE_IMMEDIATE, 0x32, "plug control register",
    some format_sbp3_plug_control_register_immediate_value⟩,
   ⟨KEY_TYPE_IMMEDIATE, 0x38, "command set spec id", none⟩,
   ⟨KEY_TYPE_IMMEDIATE, 0x39, "command set", some format_sbp_command_set_immediate_value⟩,
   ⟨KEY_TYPE_IMMEDIATE, 0x3a, "unit char.",
    some format_sbp_unit_characteristic_immediate_value⟩,
   ⟨KEY_TYPE_IMMEDIATE, 0x3b, "command set revision", none⟩,
   ⟨KEY_TYPE_IMMEDIATE, 0x3c, "firmware revision",
    some format_sbp_firmware_revision_immediate_value⟩,
   ⟨KEY_TYPE_IMMEDIATE, 0x3d, "reconnect timeout",
    some format_sbp_reconnect_timeout_immediate_value⟩,
   ⟨KEY_TYPE_IMMEDIATE, 0x3e, "fast start", some format_sbp3_fast_start_immediate_value⟩]

def ta1394_iidc_104_key_formatters : List KeyFormatter :=
  [⟨KEY_TYPE_CSR_OFFSET, 0x00, "command_regs_base", none⟩,
   ⟨KEY_TYPE_LEAF, 0x01, "vendor name", none⟩,
   ⟨KEY_TYPE_LEAF, 0x02, "model name", none⟩]

def ta1394_iidc_131_key_formatters : List KeyFormatter :=
  [⟨KEY_TYPE_CSR_OFFSET, 0x00, "command_regs_base", none⟩,
   ⟨KEY_TYPE_LEAF, 0x01, "vendor name", none⟩,
   ⟨KEY_TYPE_LEAF, 0x02, "model name", none⟩,
   ⟨KEY_TYPE_IMMEDIATE, 0x38, "unit sub sw version",
    some format_iidc_131_unit_sub_sw_version_immediate_value⟩,
   ⟨KEY_TYPE_IMMEDIATE, 0x39, "(reserved)", none⟩,
   ⟨KEY_TYPE_IMMEDIATE, 0x3a, "(reserved)", none⟩,
   ⟨KEY_TYPE_IMMEDIATE, 0x3b, "(reserved)", none⟩,
   ⟨KEY_TYPE_IMMEDIATE, 0x3c, "vendor_unique_info_0", none⟩,
   ⟨KEY_TYPE_IMMEDIATE, 0x3d, "vendor_unique_info_1", none⟩,
   ⟨KEY_TYPE_IMMEDIATE, 0x3e, "vendor_unique_info_2", none⟩,
   ⟨KEY_TYPE_IMMEDIATE, 0x3f, "vendor_unique_info_3", none⟩]

def ta1394_iidc2_100_key_formatters : List KeyFormatter :=
  [⟨KEY_TYPE_CSR_OFFSET, 0x00, "IIDC2Entry", none⟩,
   ⟨KEY_TYPE_LEAF, 0x01, "vendor name", none⟩,
   ⟨KEY_TYPE_LEAF, 0x02, "model name", none⟩,
   ⟨KEY_TYPE_IMMEDIATE, 0x38, "unit sub sw version",
    some format_iidc2_100_unit_sub_sw_version_immediate_value⟩,
   ⟨KEY_TYPE_IMMEDIATE, 0x39, "(reserved)", none⟩,
   ⟨KEY_TYPE_IMMEDIATE, 0x3a, "(reserved)", none⟩,
   ⟨KEY_TYPE_IMMEDIATE, 0x3b, "(reserved)", none⟩,
   ⟨KEY_TYPE_IMMEDIATE, 0x3c, "vendor_unique_info_0", none⟩,
   ⟨KEY_TYPE_IMMEDIATE, 0x3d, "vendor_unique_info_1", none⟩,
   ⟨KEY_TYPE_IMMEDIATE, 0x3e, "vendor_unique_info_2", none⟩,
   ⟨KEY_TYPE_IMMEDIATE, 0x3f, "vendor_unique_info_3", none⟩]

def ta1394_dpp_111_key_formatters : List KeyFormatter :=
  [⟨KEY_TYPE_DIRECTORY, 0x14, "command set directory", none⟩,
   ⟨KEY_TYPE_IMMEDIATE, 0x38, "command set spec id", none⟩,
   ⟨KEY_TYPE_IMMEDIATE, 0x39, "command set", some format_dpp_111_command_set_immediate_value⟩,
   ⟨KEY_TYPE_IMMEDIATE, 0x3a, "command set details", none⟩,
   ⟨KEY_TYPE_CSR_OFFSET, 0x3b, "connection CSR", none⟩,
   ⟨KEY_TYPE_IMMEDIATE, 0x3c, "write transaction interval",
    some format_dpp_111_write_transaction_interval_immediate_value⟩,
   ⟨KEY_TYPE_IMMEDIATE, 0x3d, "unit sw details",
    some format_dpp_111_unit_sw_details_immediate_value⟩]

def ta1394_iicp_key_formatters : List KeyFormatter :=
  [⟨KEY_TYPE_IMMEDIATE, 0x38, "details", some format_iicp_details_immediate_value⟩,
   ⟨KEY_TYPE_IMMEDIATE, 0x39, "command set spec id", none⟩,
   ⟨KEY_TYPE_IMMEDIATE, 0x3a, "command set", some format_iicp_command_set_immediate_value⟩,
   ⟨KEY_TYPE_IMMEDIATE, 0x3b, "command set details",
    some format_iicp_command_set_details_immediate_value⟩,
   ⟨KEY_TYPE_CSR_OFFSET, 0x3c, "connection CSR", none⟩,
   ⟨KEY_TYPE_IMMEDIATE, 0x3d, "capabilities", some format_iicp_capabilities_immediate_value⟩,
   ⟨KEY_TYPE_CSR_OFFSET, 0x3e, "interrupt_enable CSR", none⟩,
   ⟨KEY_TYPE_CSR_OFFSET, 0x3f, "interrupt_handlr CSR", none⟩]

def apple_isight_audio_key_formatters : List KeyFormatter :=
  [⟨KEY_TYPE_CSR_OFFSET, 0x00, "register file", none⟩]

def apple_isight_iris_key_formatters : List KeyFormatter :=
  [⟨KEY_TYPE_CSR_OFFSET, 0x00, "Iris Status Address register", none⟩]

/-- One row of the static `spec_entries` registry of
`detect_key_formatter`. -/
structure SpecEntry where
  spec_name : String
  identifier : SpecIdentifier
  formatters : List KeyFormatter

/-- The `spec_entries` registry, in source order (a NULL formatter
table is the empty list). -/
def spec_entries : List SpecEntry :=
  [⟨"IPv4 over 1394 (RFC 2734)", ⟨0x00005e, 0x000001⟩, []⟩,
   ⟨"IPv6 over 1394 (RFC 3146)", ⟨0x00005e, 0x000002⟩, []⟩,
   ⟨"SBP-2", ⟨0x00609e, 0x010483⟩, incits_sbp_key_formatters⟩,
   ⟨"AV/C over SBP-3", ⟨0x00609e, 0x0105bb⟩, incits_sbp_key_formatters⟩,
   ⟨"AV/C", ⟨0x00a02d, 0x010001⟩, []⟩,
   ⟨"CAL", ⟨0x00a02d, 0x010002⟩, []⟩,
   ⟨"EHS", ⟨0x00a02d, 0x010004⟩, []⟩,
   ⟨"HAVi", ⟨0x00a02d, 0x010008⟩, []⟩,
   ⟨"Vendor Unique", ⟨0x00a02d, 0x014000⟩, []⟩,
   ⟨"Vendor Unique and AV/C", ⟨0x00a02d, 0x014001⟩, []⟩,
   ⟨"IIDC 1.04", ⟨0x00a02d, 0x000100⟩, ta1394_iidc_104_key_formatters⟩,
   ⟨"IIDC 1.20", ⟨0x00a02d, 0x000101⟩, ta1394_iidc_104_key_formatters⟩,
   ⟨"IIDC 1.30", ⟨0x00a02d, 0x000102⟩, ta1394_iidc_131_key_formatters⟩,
   ⟨"IIDC2", ⟨0x00a02d, 0x000110⟩, ta1394_iidc2_100_key_formatters⟩,
   ⟨"DPP 1.0", ⟨0x00a02d, 0x0a6be2⟩, ta1394_dpp_111_key_formatters⟩,
   ⟨"IICP 1.0", ⟨0x00a02d, 0x4b661f⟩, ta1394_iicp_key_formatters⟩,
   ⟨"audio", ⟨0x000595, 0x000001⟩, []⟩,
   ⟨"iSight audio unit", ⟨0x000a27, 0x000010⟩, apple_isight_audio_key_formatters⟩,
   ⟨"iSight factory unit", ⟨0x000a27, 0x000011⟩, []⟩,
   ⟨"iSight iris unit", ⟨0x000a27, 0x000012⟩, apple_isight_iris_key_formatters⟩,
   ⟨"HID", ⟨0x00d04b, 0x484944⟩, []⟩]

/-- `find_formatter`: first table entry matching the key type and id. -/
def find_formatter (formatters : List KeyFormatter) (key_type key_id : Nat) :
    Option KeyFormatter :=
  formatters.find? (fun f => f.key_type == key_type && f.key_id == key_id)

/-- The per-key-type `default_formatters` of `detect_key_formatter`. -/
def default_formatters (key_type : Nat) : KeyFormatter :=
  if key_type = KEY_TYPE_IMMEDIATE then
    ⟨KEY_TYPE_IMMEDIATE, INVALID_KEY_ID, UNSPECIFIED_ENTRY_NAME,
     some format_unspecified_immediate_value⟩
  else if key_type = KEY_TYPE_CSR_OFFSET then
    ⟨KEY_TYPE_CSR_OFFSET, INVALID_KEY_ID, UNSPECIFIED_ENTRY_NAME, none⟩
  else if key_type = KEY_TYPE_LEAF then
    ⟨KEY_TYPE_LEAF, INVALID_KEY_ID, UNSPECIFIED_ENTRY_NAME, none⟩
  else
    ⟨KEY_TYPE_DIRECTORY, INVALID_KEY_ID, UNSPECIFIED_ENTRY_NAME, none⟩

/-- The fallback chain of `detect_key_formatter` after the spec table:
the IEEE 1394 bus table, then the generic CSR table, then the default
formatter; the `spec_name` out-parameter stays NULL on this path. -/
def detect_key_formatter_fallback (key_type key_id : Nat) :
    KeyFormatter × Option String :=
  match find_formatter ieee1394_bus_key_formatters key_type key_id with
  | some f => (f, none)
  | none =>
    match find_formatter csr_key_formatters key_type key_id with
    | some f => (f, none)
    | none => (default_formatters key_type, none)

/-- `detect_key_formatter`: look the accumulated identifier up in the
registry (`memcmp` equality); on a hit within that spec's table the
spec name is bound, otherwise fall through the bus/CSR/default chain. -/
def detect_key_formatter (identifier : SpecIdentifier) (key_type key_id : Nat) :
    KeyFormatter × Option String :=
  match spec_entries.find? (fun e => e.identifier == identifier) with
  | some se =>
    match find_formatter se.formatters key_type key_id with
    | some f => (f, some se.spec_name)
    | none => detect_key_formatter_fallback key_type key_id
  | none => detect_key_formatter_fallback key_type key_id

/-- `format_line_prefix`: `"%3lx  %08x"` of the `0x400`-biased offset
and the raw quadlet, plus two delimiter spaces when requested. -/
def format_line_prefix (offset quadlet : Nat) (add_delimiter : Bool) : String :=
  spacePadLeft 3 (hexString (offset + IEEE1212_CONFIG_ROM_OFFSET)) ++ "  " ++
    zeroPadHex 8 quadlet ++ (if add_delimiter then "  " else "")

/-- `format_entry_spec_name`: the spec name plus a space when bound. -/
def format_entry_spec_name : Option String → String
  | some s => s ++ " "
  | none => ""

/-- `format_immediate_entry` (content after the line prefix). -/
def format_immediate_entry (value : Nat) (spec_name : Option String)
    (formatter : KeyFormatter) : String :=
  format_entry_spec_name spec_name ++
  (if formatter.key_id ≠ INVALID_KEY_ID then formatter.key_id_name else "") ++
  (match formatter.immediate with
   | some fmt => (if formatter.key_id ≠ INVALID_KEY_ID then ": " else "") ++ fmt value
   | none => "")

/-- `format_csr_offset_entry` (content after the line prefix). -/
def format_csr_offset_entry (offset value : Nat) (spec_name : Option String)
    (formatter : KeyFormatter) : String :=
  "--> " ++ format_entry_spec_name spec_name ++
  (if formatter.key_id ≠ INVALID_KEY_ID then formatter.key_id_name ++ " " else "CSR ") ++
  "at " ++ zeroPadHex 12 (IEEE1212_REGISTER_SPACE_ADDRESS + 4 * value)

/-- `format_leaf_entry` (content after the line prefix). -/
def format_leaf_entry (offset value : Nat) (spec_name : Option String)
    (formatter : KeyFormatter) : String :=
  "--> " ++ format_entry_spec_name spec_name ++
  (if formatter.key_id ≠ INVALID_KEY_ID then formatter.key_id_name ++ " " else "") ++
  "leaf at " ++ hexString (IEEE1212_CONFIG_ROM_OFFSET + offset + 4 * value)

/-- `format_directory_entry` (content after the line prefix). -/
def format_directory_entry (offset value : Nat) (spec_name : Option String)
    (formatter : KeyFormatter) : String :=
  "--> " ++ format_entry_spec_name spec_name ++
  (if formatter.key_id ≠ INVALID_KEY_ID then formatter.key_id_name ++ " " else "") ++
  "directory at " ++ hexString (IEEE1212_CONFIG_ROM_OFFSET + offset + 4 * value)

/-- The body of entry `i` of `format_directory_entries` (everything
after the line prefix): decode, detect the formatter and dispatch
through the `format_entry` table indexed by key type. -/
def format_directory_entry_body (identifier : SpecIdentifier)
    (directory_offset i quadlet : Nat) : String :=
  let d := decode_directory_entry quadlet
  let key_type := d.1
  let key_id := d.2.1
  let value := d.2.2
  let offset := directory_offset + i * 4
  let fs := detect_key_formatter identifier key_type key_id
  if key_type = KEY_TYPE_IMMEDIATE then format_immediate_entry value fs.2 fs.1
  else if key_type = KEY_TYPE_CSR_OFFSET then format_csr_offset_entry offset value fs.2 fs.1
  else if key_type = KEY_TYPE_LEAF then format_leaf_entry offset value fs.2 fs.1
  else format_directory_entry offset value fs.2 fs.1

/-- The full line for entry `i` of `format_directory_entries`. -/
def format_directory_entry_line (identifier : SpecIdentifier)
    (directory_offset i quadlet : Nat) : String :=
  format_line_prefix (directory_offset + i * 4) quadlet true ++
    format_directory_entry_body identifier directory_offset i quadlet

/-- One step of the spec-identifier accumulation loop shared by
`format_leaf_block` and `format_directory_block`: an immediate
`SPECIFIER_ID` or `VERSION` seeds the respective field when still
unset; the `VENDOR_INFO` case seeds `specifier_id` when still unset and
falls through to `default` with no further effect. -/
def update_spec_identifier (ident : SpecIdentifier) (quadlet : Nat) : SpecIdentifier :=
  let d := decode_directory_entry quadlet
  if d.1 = KEY_TYPE_IMMEDIATE then
    if d.2.1 = KEY_ID_CSR_SPECIFIER_ID then
      if ident.specifier_id = INVALID_KEY_VALUE then { ident with specifier_id := d.2.2 }
      else ident
    else if d.2.1 = KEY_ID_CSR_VERSION then
      if ident.version = INVALID_KEY_VALUE then { ident with version := d.2.2 } else ident
    else if d.2.1 = KEY_ID_CSR_VENDOR_INFO then
      if ident.specifier_id = INVALID_KEY_VALUE then { ident with specifier_id := d.2.2 }
      else ident
    else ident
  else ident

/-- The `for (i = 1; i < quadlet_count; ++i)` scan of one block's
quadlets in the accumulation loop. -/
def scan_block_spec_identifier (q : Nat → Nat) (blk : Ieee1212Block)
    (ident : SpecIdentifier) : SpecIdentifier :=
  (List.range' 1 (blk.length / 4 - 1)).foldl
    (fun ident i => update_spec_identifier ident (readQ q (blk.offset + 4 * i))) ident

/-- The `while (base != NULL)` parent walk of the accumulation: scan the
base block, then continue with its parent while the base is a
(non-root) directory.  The parent pointer is resolved by offset in the
discovered block list; the fuel (`bs.length + 1` suffices) models that
the C pointer chain, built child-after-parent, is finite. -/
def accumulate_spec_identifier (q : Nat → Nat) (bs : List Ieee1212Block) :
    Nat → Option Nat → SpecIdentifier → SpecIdentifier
  | 0, _, ident => ident
  | _ + 1, none, ident => ident
  | fuel + 1, some baseOff, ident =>
    match bs.find? (fun b => b.offset == baseOff) with
    | none => ident
    | some base =>
      let ident2 := scan_block_spec_identifier q base ident
      if base.block_type == BlockType.directory then
        accumulate_spec_identifier q bs fuel base.parent ident2
      else ident2

/-- The spec identifier with which `format_directory_block` renders a
directory's entries: start from the base selected by the initial
switch (`none` when the C code leaves `base` uninitialized) and walk
the parent chain. -/
def format_directory_block_identifier (q : Nat → Nat) (bs : List Ieee1212Block)
    (directory : Ieee1212Block) : Option SpecIdentifier :=
  (format_directory_block_base directory).map
    (fun base => accumulate_spec_identifier q bs (bs.length + 1) base
      ⟨INVALID_KEY_VALUE, INVALID_KEY_VALUE⟩)

/-- Buffer for the SBP-2 scenario: bus-info (8 bytes), root directory
with one unit-directory entry, unit directory at byte offset 16 with
immediate `SPECIFIER_ID 0x00609e`, `VERSION 0x010483` and
`LOGICAL_UNIT_NUMBER` (key `0x14`) immediate `0x000000`. -/
def qC8 : Nat → Nat := fun i =>
  [0x01000000, 0, 0x00010000, 0xD1000001, 0x00030000,
   0x1200609e, 0x13010483, 0x14000000].getD i 0

def bsC8 : List Ieee1212Block :=
  [⟨0, 8, .busInfo, 0, none⟩, ⟨8, 8, .rootDirectory, 0, none⟩,
   ⟨16, 16, .directory, 0x11, some 8⟩]

/-- Buffer for the spec-propagation counterexample: as `qC8` but the
unit directory starts with an immediate `VENDOR_INFO` entry (key
`0x03`, value 1) before `SPECIFIER_ID`/`VERSION`, and ends with an
immediate entry of key `0x3c` (SBP-2 firmware revision). -/
def qC5 : Nat → Nat := fun i =>
  [0x01000000, 0, 0x00010000, 0xD1000001, 0x00040000,
   0x03000001, 0x1200609e, 0x13010483, 0x3c000000].getD i 0

def bsC5 : List Ieee1212Block :=
  [⟨0, 8, .busInfo, 0, none⟩, ⟨8, 8, .rootDirectory, 0, none⟩,
   ⟨16, 20, .directory, 0x11, some 8⟩]

lemma and_mask16_lt (x : Nat) : x &&& 0x0000ffff < 65536 := by
  have h : x &&& 0x0000ffff ≤ 0x0000ffff := Nat.and_le_right
  omega

lemma crc_itu_t_step_lt (quadlet crc shift : Nat) : crc_itu_t_step quadlet crc shift < 65536 :=
  and_mask16_lt _

lemma crc_itu_t_quadlet_lt (crc quadlet : Nat) : crc_itu_t_quadlet crc quadlet < 65536 := by
  simp only [crc_itu_t_quadlet, List.foldl]
  exact crc_itu_t_step_lt _ _ _

lemma compute_itu_t_crc_16_lt (l : List Nat) : compute_itu_t_crc_16 l < 65536 := by
  have main : ∀ (l : List Nat) (c : Nat), c < 65536 → l.foldl crc_itu_t_quadlet c < 65536 := by
    intro l
    induction l with
    | nil => intro c hc; exact hc
    | cons a t ih => intro c _; exact ih _ (crc_itu_t_quadlet_lt c a)
  exact main l 0 (by omega)

/-- C2: the endian detector in `bus_info_block_is_big_endian` compares
the natively read quadlet at index 1 against the literal `0x1394`, not
against `0x31333934`: a buffer carrying the ASCII bus name `1394`
(quadlet value `0x31333934`) is NOT byte-swapped, while a buffer whose
second quadlet happens to equal the number `0x1394` IS byte-swapped.
This contradicts the claim (and the bus-name table of the same file,
which maps `0x31333934` to `"1394"`). -/
theorem endian_detector_compares_0x1394 :
    bus_info_block_is_big_endian qAsciiTag 20 0 = false ∧
    bus_info_block_is_big_endian qHexNumber 20 0 = true ∧
    qAsciiTag 1 = 0x31333934 ∧ qHexNumber 1 ≠ 0x31333934 := by decide

/-- C3: in `detect_ieee1212_bus_info_block_length` the expression
`4 * (quadlet & 0xff000000) >> 24` multiplies before shifting, in
32-bit arithmetic, so the declared length byte is folded mod 64.  For
length byte `0x41` the code yields `4 + 4 * 1 = 8` bytes where the
claimed formula `4 + 4 * ((quadlet[0] >> 24) & 0xFF)` yields 264; for
length byte `0xff` with a 516-byte buffer the code succeeds with a
256-byte block where the claimed length 1024 would exceed the buffer
and make discovery fail. -/
theorem bus_info_length_truncates_to_six_bits :
    detect_ieee1212_bus_info_block_length qLen41 1024 0 = some 8 ∧
    4 + 4 * ((qLen41 0 >>> 24) &&& 0xff) = 264 ∧
    detect_ieee1212_bus_info_block_length qLenFF 516 0 = some 256 ∧
    4 + 4 * ((qLenFF 0 >>> 24) &&& 0xff) = 1024 := by decide

/-- C4 counterexample: running discovery and normalization on `qC4`
truncates the leaf at byte offset 20 from its declared 1 + 1 quadlets to
its header quadlet alone.  Its stored CRC equals the ITU-T CRC-16 over
exactly the declared 1 quadlet following the header in the buffer, yet
`format_block_metadata` still emits a `"(should be …)"` annotation,
because the code computes the CRC over the truncated block's
`quadlet_count - 1 = 0` quadlets instead. -/
theorem crc_annotation_counterexample :
    detect_ieee1212_blocks 8 qC4 28 = .ok
      [⟨0, 8, .busInfo, 0, none⟩, ⟨8, 12, .rootDirectory, 0, none⟩,
       ⟨20, 8, .leaf, 2, some 8⟩, ⟨24, 4, .leaf, 2, some 8⟩] ∧
    fulfill_orphan_blocks 28 (normalize_blocks 28
      [⟨0, 8, .busInfo, 0, none⟩, ⟨8, 12, .rootDirectory, 0, none⟩,
       ⟨20, 8, .leaf, 2, some 8⟩, ⟨24, 4, .leaf, 2, some 8⟩]) =
      [⟨0, 8, .busInfo, 0, none⟩, ⟨8, 12, .rootDirectory, 0, none⟩,
       ⟨20, 4, .leaf, 2, some 8⟩, ⟨24, 4, .leaf, 2, some 8⟩] ∧
    (readQ qC4 20) >>> 16 &&& 0xffff = 1 ∧
    (readQ qC4 20) &&& 0x0000ffff = compute_itu_t_crc_16 [readQ qC4 24] ∧
    format_block_metadata_should_be (block_quadlets qC4 ⟨20, 4, .leaf, 2, some 8⟩) ≠ none := by
  decide

/-- C4 (amended): for every rendered non-bus-info, non-orphan block the
`"(should be N)"` annotation is present if and only if the stored 16-bit
CRC differs from the ITU-T CRC-16 over the block's effective
`quadlet_count - 1` quadlets following the header (which equals the
declared length exactly when the block is not truncated); overwriting
the CRC field with the CRC over those quadlets removes the
annotation. -/
theorem crc_annotation_effective_quadlets (q0 : Nat) (rest : List Nat) :
    (format_block_metadata_should_be (q0 :: rest) = none ↔
      q0 &&& 0x0000ffff = compute_itu_t_crc_16 rest) ∧
    format_block_metadata_should_be
      (((q0 >>> 16) <<< 16 + compute_itu_t_crc_16 rest) :: rest) = none := by
  constructor
  · simp only [format_block_metadata_should_be, IEEE1212_BLOCK_CRC_MASK, ne_eq, ite_not]
    split_ifs with h
    · simp [h]
    · simp [h]
  · have hlt := compute_itu_t_crc_16_lt rest
    have hmask : ((q0 >>> 16) <<< 16 + compute_itu_t_crc_16 rest) &&& 0x0000ffff =
        compute_itu_t_crc_16 rest := by
      have h := Nat.and_pow_two_sub_one_eq_mod
        ((q0 >>> 16) <<< 16 + compute_itu_t_crc_16 rest) 16
      norm_num at h
      rw [h, Nat.shiftLeft_eq]
      omega
    simp [format_block_metadata_should_be, IEEE1212_BLOCK_CRC_MASK, hmask]

/-- C7 counterexample: on empty, non-terminal standard input (`isatty`
false, `read` returning 0) the program exits non-zero but prints NO
diagnostic to the standard error stream, contradicting the claim that a
diagnostic is printed for empty input. -/
theorem empty_input_no_diagnostic_counterexample :
    (main_early_exit false 0).isSome = true ∧
    (main_early_exit false 0).map (fun o => o.stderr_diagnostic) = some false := by decide

/-- C7 (amended): a terminal on standard input is fatal with a
diagnostic on standard error, a non-positive `read` result (empty
input) is fatal WITHOUT a diagnostic; in both cases the exit status is
non-zero and nothing has been emitted on standard output; for positive
input length `main` proceeds. -/
theorem main_early_exit_behavior (l : Int) (h : l ≤ 0) :
    (∀ l2 : Int, main_early_exit true l2 =
      some { exit_nonzero := true, stderr_diagnostic := true, stdout_empty := true }) ∧
    main_early_exit false l =
      some { exit_nonzero := true, stderr_diagnostic := false, stdout_empty := true } ∧
    (∀ l3 : Int, 0 < l3 → main_early_exit false l3 = none) := by
  refine ⟨fun l2 => rfl, ?_, fun l3 h3 => ?_⟩
  · simp [main_early_exit, h]
  · simp [main_early_exit]
    omega

theorem main_early_exit_behavior_witness :
    main_early_exit false 0 =
      some { exit_nonzero := true, stderr_diagnostic := false, stdout_empty := true } :=
  (main_early_exit_behavior 0 (by norm_num)).2.1

/-- C9 counterexample: a directory block referenced under key id `0x20`
(or any key id outside the enumerated set) leaves `base` uninitialized
in `format_directory_block` — the initial switch assigns `base` in no
branch for it — so rendering such a directory is NOT well-defined. -/
theorem directory_base_uninitialized_counterexample :
    (format_directory_block_base
      { offset := 16, length := 8, block_type := .directory,
        key_id := 0x20, parent := some 8 }).isSome = false := by decide

/-- C9 (amended): `format_directory_block` starts its spec-identifier
accumulation from the parent directory for the six enumerated CSR key
ids and from the directory itself for the unit and feature keys; for
every other key id `base` is left uninitialized (modelled `none`) and
the subsequent walk dereferences an indeterminate pointer. -/
theorem directory_base_enumerated_keys (blk : Ieee1212Block) :
    (blk.key_id ∈ ([0x03, 0x07, 0x01, 0x02, 0x14, 0x18] : List Nat) →
      format_directory_block_base blk = some blk.parent) ∧
    ((blk.key_id = 0x11 ∨ blk.key_id = 0x1a) →
      format_directory_block_base blk = some (some blk.offset)) ∧
    (format_directory_block_base blk = none ↔
      blk.key_id ∉ ([0x03, 0x07, 0x01, 0x02, 0x14, 0x18, 0x11, 0x1a] : List Nat)) := by
  by_cases h1 : blk.key_id = 0x03 ∨ blk.key_id = 0x07 ∨ blk.key_id = 0x01 ∨
      blk.key_id = 0x02 ∨ blk.key_id = 0x14 ∨ blk.key_id = 0x18
  · simp only [format_directory_block_base, KEY_ID_CSR_VENDOR_INFO, KEY_ID_CSR_MODULE_INFO,
      KEY_ID_CSR_DESCRIPTOR, KEY_ID_CSR_BUS_DEP_INFO, KEY_ID_CSR_DEP_INFO,
      KEY_ID_CSR_INSTANCE, KEY_ID_CSR_UNIT, KEY_ID_CSR_FEATURE, if_pos h1]
    refine ⟨fun _ => trivial, fun hu => absurd h1 (by omega), ?_⟩
    constructor
    · intro hc; exact absurd hc (by simp)
    · intro hnm
      exfalso
      simp only [List.mem_cons, List.not_mem_nil, or_false] at hnm
      omega
  · by_cases h2 : blk.key_id = 0x11 ∨ blk.key_id = 0x1a
    · simp only [format_directory_block_base, KEY_ID_CSR_VENDOR_INFO, KEY_ID_CSR_MODULE_INFO,
        KEY_ID_CSR_DESCRIPTOR, KEY_ID_CSR_BUS_DEP_INFO, KEY_ID_CSR_DEP_INFO,
        KEY_ID_CSR_INSTANCE, KEY_ID_CSR_UNIT, KEY_ID_CSR_FEATURE, if_neg h1, if_pos h2]
      refine ⟨fun hm => absurd (by simpa using hm) h1, fun _ => trivial, ?_⟩
      constructor
      · intro hc; exact absurd hc (by simp)
      · intro hnm
        exfalso
        simp only [List.mem_cons, List.not_mem_nil, or_false] at hnm
        omega
    · simp only [format_directory_block_base, KEY_ID_CSR_VENDOR_INFO, KEY_ID_CSR_MODULE_INFO,
        KEY_ID_CSR_DESCRIPTOR, KEY_ID_CSR_BUS_DEP_INFO, KEY_ID_CSR_DEP_INFO,
        KEY_ID_CSR_INSTANCE, KEY_ID_CSR_UNIT, KEY_ID_CSR_FEATURE, if_neg h1, if_neg h2]
      refine ⟨fun hm => absurd (by simpa using hm) h1, fun hu => absurd hu h2, ?_⟩
      constructor
      · intro hmem
        simp only [List.mem_cons, List.not_mem_nil, or_false]
        omega
      · intro hmem
        trivial

theorem directory_base_enumerated_keys_witness :
    format_directory_block_base
      { offset := 16, length := 16, block_type := .directory,
        key_id := 0x11, parent := some 8 } = some (some 16) :=
  (directory_base_enumerated_keys
    { offset := 16, length := 16, block_type := .directory,
      key_id := 0x11, parent := some 8 }).2.1 (Or.inl rfl)

-- Basic properties of the offset-ordered insertion.

lemma mem_insertTail (e a : Ieee1212Block) (l : List Ieee1212Block) :
    a ∈ insertTail e l ↔ a = e ∨ a ∈ l := by
  induction l with
  | nil => simp [insertTail]
  | cons x t ih =>
    simp only [insertTail]
    split_ifs with hx
    · simp [List.mem_cons]
    · simp only [List.mem_cons, ih]
      tauto

lemma mem_insert_block (head : List Ieee1212Block) (e a : Ieee1212Block) :
    a ∈ insert_block_by_offset head e ↔ a = e ∨ a ∈ head := by
  cases head with
  | nil => simp [insert_block_by_offset]
  | cons first rest =>
    simp only [insert_block_by_offset, List.mem_cons, mem_insertTail]
    tauto

lemma insertTail_pairwise (e : Ieee1212Block) (t : List Ieee1212Block)
    (hp : t.Pairwise (fun a b => a.offset < b.offset))
    (hne : ∀ b ∈ t, b.offset ≠ e.offset)
    (hlb : ∀ b ∈ t, b.offset < e.offset ∨ e.offset < b.offset) :
    (insertTail e t).Pairwise (fun a b => a.offset < b.offset) := by
  induction t with
  | nil => simp [insertTail]
  | cons x t2 ih =>
    simp only [insertTail]
    rcases List.pairwise_cons.mp hp with ⟨hx, hp2⟩
    split_ifs with hcmp
    · refine List.pairwise_cons.mpr ⟨?_, hp⟩
      intro b hb
      rcases List.mem_cons.mp hb with hb | hb
      · exact hb ▸ hcmp
      · exact Nat.lt_trans hcmp (hx b hb)
    · have hxe : x.offset < e.offset := by
        rcases hlb x (List.mem_cons_self x t2) with h | h
        · exact h
        · exact absurd h hcmp
      refine List.pairwise_cons.mpr ⟨?_, ?_⟩
      · intro b hb
        rcases (mem_insertTail e b t2).mp hb with hb | hb
        · exact hb ▸ hxe
        · exact hx b hb
      · exact ih hp2 (fun b hb => hne b (List.mem_cons_of_mem x hb))
          (fun b hb => hlb b (List.mem_cons_of_mem x hb))

lemma insert_block_good (L : Nat) (head : List Ieee1212Block) (e : Ieee1212Block)
    (hg : GoodHead L head) (hpos : 0 < e.offset) (hlt : e.offset < L)
    (hlen : 0 < e.length) (hfresh : ∀ b ∈ head, b.offset ≠ e.offset) :
    GoodHead L (insert_block_by_offset head e) := by
  rcases hg with ⟨⟨b0, t0, hhead, hb0⟩, hpair, hbound⟩
  subst hhead
  refine ⟨⟨b0, insertTail e t0, rfl, hb0⟩, ?_, ?_⟩
  · rcases List.pairwise_cons.mp hpair with ⟨hb0t, hpt⟩
    simp only [insert_block_by_offset]
    have hlb : ∀ b ∈ t0, b.offset < e.offset ∨ e.offset < b.offset := by
      intro b hb
      have := hfresh b (List.mem_cons_of_mem b0 hb)
      omega
    refine List.pairwise_cons.mpr ⟨?_, ?_⟩
    · intro b hb
      rcases (mem_insertTail e b t0).mp hb with hb | hb
      · subst hb; omega
      · exact hb0t b hb
    · exact insertTail_pairwise e t0 hpt
        (fun b hb => hfresh b (List.mem_cons_of_mem b0 hb)) hlb
  · intro b hb
    rcases (mem_insert_block (b0 :: t0) e b).mp hb with hb | hb
    · subst hb; exact ⟨hlt, hlen⟩
    · exact hbound b hb

lemma offsetsSub_insert (head : List Ieee1212Block) (e : Ieee1212Block) :
    offsetsSub head (insert_block_by_offset head e) := by
  intro b hb
  exact ⟨b, (mem_insert_block head e b).mpr (Or.inr hb), rfl⟩

lemma offsetsSub_refl (h : List Ieee1212Block) : offsetsSub h h :=
  fun b hb => ⟨b, hb, rfl⟩

lemma offsetsSub_trans (h1 h2 h3 : List Ieee1212Block)
    (a : offsetsSub h1 h2) (b : offsetsSub h2 h3) : offsetsSub h1 h3 := by
  intro x hx
  rcases a x hx with ⟨y, hy, hyo⟩
  rcases b y hy with ⟨z, hz, hzo⟩
  exact ⟨z, hz, hzo.trans hyo⟩

lemma offsetsSub_leaf (block_offset block_length key_id : Nat) (parent : Option Nat)
    (head : List Ieee1212Block) :
    offsetsSub head (detect_ieee1212_leaf_block block_offset block_length key_id parent head) := by
  unfold detect_ieee1212_leaf_block
  split_ifs with h
  · exact offsetsSub_refl head
  · exact offsetsSub_insert head _

-- Filter-counting lemmas used for the recursion budget.

lemma length_filter_le_of_imp (l : List Nat) (p r : Nat → Bool)
    (h : ∀ a ∈ l, p a = true → r a = true) :
    (l.filter p).length ≤ (l.filter r).length := by
  induction l with
  | nil => simp
  | cons x t ih =>
    have ht : ∀ a ∈ t, p a = true → r a = true :=
      fun a ha => h a (List.mem_cons_of_mem x ha)
    simp only [List.filter_cons]
    by_cases hp : p x = true
    · rw [if_pos hp, if_pos (h x (List.mem_cons_self x t) hp)]
      simpa using ih ht
    · rw [if_neg hp]
      split_ifs with hr
    
      · exact Nat.le_succ_of_le (ih ht)
      · exact ih ht

lemma length_filter_lt_of_witness (l : List Nat) (p r : Nat → Bool) (a : Nat)
    (ha : a ∈ l) (hra : r a = true) (hpa : p a = false)
    (h : ∀ x ∈ l, p x = true → r x = true) :
    (l.filter p).length < (l.filter r).length := by
  induction l with
  | nil => exact absurd ha (List.not_mem_nil a)
  | cons x t ih =>
    have ht : ∀ y ∈ t, p y = true → r y = true :=
      fun y hy => h y (List.mem_cons_of_mem x hy)
    simp only [List.filter_cons]
    rcases List.mem_cons.mp ha with hax | hat
    · subst hax
      rw [if_neg (by simp [hpa]), if_pos hra]
      exact Nat.lt_succ_of_le (length_filter_le_of_imp t p r ht)
    · by_cases hp : p x = true
      · rw [if_pos hp, if_pos (h x (List.mem_cons_self x t) hp)]
        simpa using ih hat ht
      · rw [if_neg hp]
        split_ifs with hr
        · exact Nat.lt_succ_of_le (Nat.le_of_lt (ih hat ht))
        · exact ih hat ht

lemma slots_mono (L : Nat) (h1 h2 : List Ieee1212Block) (hs : offsetsSub h1 h2) :
    (freeQuadletSlots L h2).length ≤ (freeQuadletSlots L h1).length := by
  apply length_filter_le_of_imp
  intro j _ hp
  simp only [Bool.not_eq_true', List.any_eq_false] at hp ⊢
  intro b hb
  by_contra hcontra
  simp only [Bool.not_eq_false, beq_iff_eq] at hcontra
  rcases hs b hb with ⟨b2, hb2, hb2o⟩
  have h2 := hp b2 hb2
  rw [hb2o, hcontra] at h2
  simp at h2

lemma slots_insert_lt (L : Nat) (head : List Ieee1212Block) (e : Ieee1212Block)
    (hmod : e.offset % 4 = 0) (hlt : e.offset < L)
    (hfresh : head.any (fun b => b.offset == e.offset) = false) :
    (freeQuadletSlots L (insert_block_by_offset head e)).length <
      (freeQuadletSlots L head).length := by
  apply length_filter_lt_of_witness _ _ _ (e.offset / 4)
  · simp only [List.mem_range]
    omega
  · simp only [Bool.not_eq_true']
    have h4 : 4 * (e.offset / 4) = e.offset := by omega
    rw [h4]
    exact hfresh
  · simp only [Bool.not_eq_false', List.any_eq_true]
    have h4 : 4 * (e.offset / 4) = e.offset := by omega
    rw [h4]
    exact ⟨e, (mem_insert_block head e e).mpr (Or.inl rfl), by simp⟩
  · intro j _ hp
    simp only [Bool.not_eq_true', List.any_eq_false] at hp ⊢
    intro b hb
    exact hp b ((mem_insert_block head e b).mpr (Or.inr hb))

-- Shape of the length detectors.

lemma detect_bus_info_block_length_some (q : Nat → Nat) (L off bl : Nat)
    (h : detect_ieee1212_bus_info_block_length q L off = some bl) :
    4 ≤ bl ∧ off + bl ≤ L := by
  simp only [detect_ieee1212_bus_info_block_length, IEEE1212_BUS_INFO_BLOCK_LENGTH_MASK,
    IEEE1212_BUS_INFO_BLOCK_LENGTH_SHIFT, U32_MOD] at h
  split_ifs at h with hc
  injection h with h2
  omega

lemma detect_block_length_some (q : Nat → Nat) (L off bl : Nat)
    (h : detect_ieee1212_block_length q L off = some bl) :
    4 ≤ bl ∧ off + bl ≤ L := by
  simp only [detect_ieee1212_block_length, IEEE1212_BLOCK_LENGTH_MASK,
    IEEE1212_BLOCK_LENGTH_SHIFT, U32_MOD] at h
  split_ifs at h with hc
  injection h with h2
  omega

lemma any_offset_false (head : List Ieee1212Block) (off : Nat)
    (h : ¬head.any (fun e => e.offset == off) = true) :
    ∀ b ∈ head, b.offset ≠ off := by
  intro b hb heq
  simp only [Bool.not_eq_true] at h
  rw [List.any_eq_false] at h
  have h2 := h b hb
  rw [heq] at h2
  simp at h2

lemma detect_leaf_good (L block_offset block_length key_id : Nat) (parent : Option Nat)
    (head : List Ieee1212Block) (hg : GoodHead L head) (hpos : 0 < block_offset)
    (hlt : block_offset < L) (hlen : 0 < block_length) :
    GoodHead L (detect_ieee1212_leaf_block block_offset block_length key_id parent head) := by
  unfold detect_ieee1212_leaf_block
  split_ifs with hdup
  · exact hg
  · exact insert_block_good L head _ hg hpos hlt hlen (any_offset_false head block_offset hdup)

-- GoodHead is preserved by the entry loop, given that the directory
-- handler preserves it.

lemma entries_go_good
    (R : Nat → Nat → Nat → Option Nat → List Ieee1212Block → DetectResult)
    (q : Nat → Nat) (L doff : Nat) (par : Option Nat)
    (hR : ∀ off len kid par2 head, GoodHead L head → 0 < off → off < L → 0 < len →
      ∀ r, R off len kid par2 head = .ok r → GoodHead L r) :
    ∀ n i head, GoodHead L head →
      ∀ r, detect_ieee1212_directory_entries_go R q L doff par i n head = .ok r →
        GoodHead L r := by
  intro n
  induction n with
  | zero =>
    intro i head hg r h
    simp only [detect_ieee1212_directory_entries_go] at h
    injection h with h
    subst h
    exact hg
  | succ n ih =>
    intro i head hg r h
    simp only [detect_ieee1212_directory_entries_go] at h
    split at h
    · -- leaf or directory key type
      rename_i hkt
      split at h
      · exact DetectResult.noConfusion h
      · rename_i hoff
        split at h
        · exact DetectResult.noConfusion h
        · rename_i bl hbl
          rcases detect_block_length_some _ _ _ _ hbl with ⟨hbl4, hblL⟩
          split at h
          · -- leaf child
            refine ih (i + 1) _ ?_ r h
            exact detect_leaf_good L _ bl _ par head hg (by omega) (by omega) (by omega)
          · -- directory child
            split at h
            · rename_i head2 hd
              refine ih (i + 1) head2 ?_ r h
              exact hR _ bl _ par head hg (by omega) (by omega) (by omega) head2 hd
            · rename_i hne hd
              exact absurd h (hd r)
    · exact ih (i + 1) head hg r h

lemma dir_good (q : Nat → Nat) (L : Nat) :
    ∀ fuel off len kid par head, GoodHead L head → 0 < off → off < L → 0 < len →
      ∀ r, detect_ieee1212_directory_block fuel q L off len kid par head = .ok r →
        GoodHead L r := by
  intro fuel
  induction fuel with
  | zero =>
    intro off len kid par head _ _ _ _ r h
    exact DetectResult.noConfusion h
  | succ fuel ih =>
    intro off len kid par head hg hpos hlt hlen r h
    simp only [detect_ieee1212_directory_block] at h
    split_ifs at h with hdup
    · injection h with h
      subst h
      exact hg
    · have hg2 : GoodHead L (insert_block_by_offset head
          { offset := off, length := len, block_type := .directory,
            key_id := kid, parent := par }) :=
        insert_block_good L head _ hg hpos hlt hlen (any_offset_false head off hdup)
      exact entries_go_good _ q L off (some off)
        (fun off2 len2 kid2 par2 head2 hgx hp2 hl2 hn2 r2 hr2 =>
          ih off2 len2 kid2 par2 head2 hgx hp2 hl2 hn2 r2 hr2)
        _ 0 _ hg2 r h

lemma root_good (fuel : Nat) (q : Nat → Nat) (L block_offset block_length : Nat)
    (head : List Ieee1212Block) (hg : GoodHead L head) (hpos : 0 < block_offset)
    (hlt : block_offset < L) (hlen : 0 < block_length)
    (hfresh : ∀ b ∈ head, b.offset ≠ block_offset) :
    ∀ r, detect_ieee1212_root_directory_block fuel q L block_offset block_length head = .ok r →
      GoodHead L r := by
  intro r h
  unfold detect_ieee1212_root_directory_block at h
  have hg2 : GoodHead L (insert_block_by_offset head
      { offset := block_offset, length := block_length, block_type := .rootDirectory,
        key_id := 0, parent := none }) :=
    insert_block_good L head _ hg hpos hlt hlen hfresh
  exact entries_go_good _ q L block_offset (some block_offset)
    (fun off2 len2 kid2 par2 head2 hgx hp2 hl2 hn2 r2 hr2 =>
      dir_good q L fuel off2 len2 kid2 par2 head2 hgx hp2 hl2 hn2 r2 hr2)
    _ 0 _ hg2 r h

lemma detect_blocks_good (fuel : Nat) (q : Nat → Nat) (L : Nat) (bs : List Ieee1212Block)
    (h : detect_ieee1212_blocks fuel q L = .ok bs) : GoodHead L bs := by
  unfold detect_ieee1212_blocks at h
  split at h
  · exact DetectResult.noConfusion h
  · rename_i bl hbl
    split at h
    · exact DetectResult.noConfusion h
    · rename_i bl2 hbl2
      rcases detect_bus_info_block_length_some _ _ _ _ hbl with ⟨hbl4, hblL⟩
      rcases detect_block_length_some _ _ _ _ hbl2 with ⟨hbl24, hbl2L⟩
      have hg : GoodHead L (detect_ieee1212_bus_info_block 0 bl []) := by
        refine ⟨⟨_, [], rfl, rfl⟩, ?_, ?_⟩
        · simp [detect_ieee1212_bus_info_block, insert_block_by_offset]
        · intro b hb
          simp only [detect_ieee1212_bus_info_block, insert_block_by_offset,
            List.mem_singleton] at hb
          subst hb
          constructor
          · simp only []
            omega
          · simpa using by omega
      exact root_good fuel q L bl bl2 _ hg (by omega) (by omega) (by omega)
        (by
          intro b hb
          simp only [detect_ieee1212_bus_info_block, insert_block_by_offset,
            List.mem_singleton] at hb
          subst hb
          simp only []
          omega)
        bs h

-- The discovery only ever grows the block set.

lemma entries_go_offsetsSub
    (R : Nat → Nat → Nat → Option Nat → List Ieee1212Block → DetectResult)
    (q : Nat → Nat) (L doff : Nat) (par : Option Nat)
    (hR : ∀ off len kid par2 head r, R off len kid par2 head = .ok r → offsetsSub head r) :
    ∀ n i head r, detect_ieee1212_directory_entries_go R q L doff par i n head = .ok r →
      offsetsSub head r := by
  intro n
  induction n with
  | zero =>
    intro i head r h
    simp only [detect_ieee1212_directory_entries_go] at h
    injection h with h
    subst h
    exact offsetsSub_refl _
  | succ n ih =>
    intro i head r h
    simp only [detect_ieee1212_directory_entries_go] at h
    split at h
    · split at h
      · exact DetectResult.noConfusion h
      · split at h
        · exact DetectResult.noConfusion h
        · rename_i bl hbl
          split at h
          · exact offsetsSub_trans _ _ _ (offsetsSub_leaf _ bl _ par head) (ih (i + 1) _ r h)
          · split at h
            · rename_i head2 hd
              exact offsetsSub_trans _ _ _ (hR _ bl _ par head head2 hd) (ih (i + 1) head2 r h)
            · rename_i hne hd
              exact absurd h (hd r)
    · exact ih (i + 1) head r h

lemma dir_offsetsSub (q : Nat → Nat) (L : Nat) :
    ∀ fuel off len kid par head r,
      detect_ieee1212_directory_block fuel q L off len kid par head = .ok r →
        offsetsSub head r := by
  intro fuel
  induction fuel with
  | zero =>
    intro off len kid par head r h
    exact DetectResult.noConfusion h
  | succ fuel ih =>
    intro off len kid par head r h
    simp only [detect_ieee1212_directory_block] at h
    split_ifs at h with hdup
    · injection h with h
      subst h
      exact offsetsSub_refl _
    · exact offsetsSub_trans _ _ _ (offsetsSub_insert head _)
        (entries_go_offsetsSub _ q L off (some off)
          (fun off2 len2 kid2 par2 head2 r2 hr2 => ih off2 len2 kid2 par2 head2 r2 hr2)
          _ 0 _ r h)

-- The recursion budget: as long as the number of free quadlet-aligned
-- slots below the buffer end is smaller than the fuel, the discovery
-- never runs out of fuel.

lemma entries_go_noFuel
    (R : Nat → Nat → Nat → Option Nat → List Ieee1212Block → DetectResult)
    (q : Nat → Nat) (L doff : Nat) (par : Option Nat) (f : Nat)
    (hRsub : ∀ off len kid par2 head r, R off len kid par2 head = .ok r → offsetsSub head r)
    (hRnf : ∀ off len kid par2 head, (freeQuadletSlots L head).length < f → off % 4 = 0 →
      off < L → R off len kid par2 head ≠ .outOfFuel) :
    ∀ n i head, (freeQuadletSlots L head).length < f → doff % 4 = 0 →
      detect_ieee1212_directory_entries_go R q L doff par i n head ≠ .outOfFuel := by
  intro n
  induction n with
  | zero =>
    intro i head _ _ hcontra
    simp only [detect_ieee1212_directory_entries_go] at hcontra
    exact DetectResult.noConfusion hcontra
  | succ n ih =>
    intro i head hslack hdoff hcontra
    simp only [detect_ieee1212_directory_entries_go] at hcontra
    split at hcontra
    · split at hcontra
      · exact DetectResult.noConfusion hcontra
      · rename_i hoff
        split at hcontra
        · exact DetectResult.noConfusion hcontra
        · rename_i bl hbl
          split at hcontra
          · refine ih (i + 1) _ ?_ hdoff hcontra
            exact Nat.lt_of_le_of_lt
              (slots_mono L head _ (offsetsSub_leaf _ bl _ par head)) hslack
          · split at hcontra
            · rename_i head2 hd
              refine ih (i + 1) head2 ?_ hdoff hcontra
              exact Nat.lt_of_le_of_lt (slots_mono L head head2 (hRsub _ bl _ par head head2 hd))
                hslack
            · rename_i hne hd
              exact hRnf _ bl _ par head hslack (by omega) (by omega) hcontra
    · exact ih (i + 1) head hslack hdoff hcontra

lemma dir_noFuel (q : Nat → Nat) (L : Nat) :
    ∀ fuel off len kid par head, (freeQuadletSlots L head).length < fuel → off % 4 = 0 →
      off < L → detect_ieee1212_directory_block fuel q L off len kid par head ≠ .outOfFuel := by
  intro fuel
  induction fuel with
  | zero =>
    intro off len kid par head hslack _ _
    exact absurd hslack (Nat.not_lt_zero _)
  | succ fuel ih =>
    intro off len kid par head hslack hmod hlt hcontra
    simp only [detect_ieee1212_directory_block] at hcontra
    split_ifs at hcontra with hdup
    have hless := slots_insert_lt L head
      { offset := off, length := len, block_type := .directory, key_id := kid, parent := par }
      hmod hlt (by simpa using hdup)
    refine entries_go_noFuel _ q L off (some off) fuel
      (fun off2 len2 kid2 par2 head2 r2 hr2 =>
        dir_offsetsSub q L fuel off2 len2 kid2 par2 head2 r2 hr2)
      (fun off2 len2 kid2 par2 head2 hs2 hm2 hl2 =>
        ih off2 len2 kid2 par2 head2 hs2 hm2 hl2)
      _ 0 _ (by omega) hmod hcontra

lemma bus_info_block_length_mod4 (q : Nat → Nat) (L off bl : Nat)
    (h : detect_ieee1212_bus_info_block_length q L off = some bl) : bl % 4 = 0 := by
  simp only [detect_ieee1212_bus_info_block_length, IEEE1212_BUS_INFO_BLOCK_LENGTH_MASK,
    IEEE1212_BUS_INFO_BLOCK_LENGTH_SHIFT, U32_MOD] at h
  split_ifs at h with hc
  injection h with h2
  set x := readQ q 0 &&& 4278190080 with hx
  have hx24 : x % 16777216 = 0 := by
    have ha : x &&& 0xffffff = readQ q 0 &&& (4278190080 &&& 0xffffff) := by
      rw [hx, Nat.and_assoc]
    have hz : ((4278190080 : Nat) &&& 0xffffff) = 0 := by decide
    have hm := Nat.and_pow_two_sub_one_eq_mod x 24
    norm_num at hm
    rw [← hm, ha, hz, Nat.and_zero]
  have hxb : x ≤ 4278190080 := Nat.and_le_right
  rw [Nat.shiftRight_eq_div_pow] at h2
  norm_num at h2
  omega

lemma freeQuadletSlots_nil (L : Nat) : (freeQuadletSlots L []).length = (L + 3) / 4 := by
  simp [freeQuadletSlots]

/-- C10: block discovery terminates on every input buffer, including
ROMs whose directory entries form reference cycles: an offset already in
the block set is skipped rather than recursed into, each directory
recursion first claims a fresh quadlet-aligned offset below the buffer
end, and therefore fuel `L / 4 + 1` — one unit per quadlet of the
buffer — is never exhausted: the embedded recursion never returns its
`outOfFuel` marker. -/
theorem detect_blocks_fuel_sufficient (q : Nat → Nat) (L fuel : Nat)
    (hfuel : L / 4 + 1 ≤ fuel) :
    detect_ieee1212_blocks fuel q L ≠ .outOfFuel := by
  intro hcontra
  unfold detect_ieee1212_blocks at hcontra
  split at hcontra
  · exact DetectResult.noConfusion hcontra
  · rename_i bl hbl
    split at hcontra
    · exact DetectResult.noConfusion hcontra
    · rename_i bl2 hbl2
      rcases detect_bus_info_block_length_some _ _ _ _ hbl with ⟨hbl4, hblL⟩
      rcases detect_block_length_some _ _ _ _ hbl2 with ⟨hbl24, hbl2L⟩
      have hmod := bus_info_block_length_mod4 _ _ _ _ hbl
      unfold detect_ieee1212_root_directory_block at hcontra
      have hbus : detect_ieee1212_bus_info_block 0 bl [] =
          [{ offset := 0, length := bl, block_type := .busInfo, key_id := 0, parent := none }] :=
        rfl
      have hslack0 : (freeQuadletSlots L (detect_ieee1212_bus_info_block 0 bl [])).length <
          (L + 3) / 4 := by
        rw [hbus, ← freeQuadletSlots_nil L]
        exact slots_insert_lt L []
          { offset := 0, length := bl, block_type := .busInfo, key_id := 0, parent := none }
          rfl (by show (0 : Nat) < L; omega) rfl
      have hslack1 : (freeQuadletSlots L (insert_block_by_offset
          (detect_ieee1212_bus_info_block 0 bl [])
          { offset := bl, length := bl2, block_type := .rootDirectory,
            key_id := 0, parent := none })).length <
          (freeQuadletSlots L (detect_ieee1212_bus_info_block 0 bl [])).length := by
        apply slots_insert_lt L _ _ hmod (by show bl < L; omega)
        rw [hbus, List.any_eq_false]
        intro b hb
        simp only [List.mem_singleton] at hb
        subst hb
        simp only [beq_eq_false_iff_ne, ne_eq, Bool.not_eq_true]
        show ¬(0 = bl)
        omega
      refine entries_go_noFuel _ q L bl (some bl) fuel
        (fun off2 len2 kid2 par2 head2 r2 hr2 =>
          dir_offsetsSub q L fuel off2 len2 kid2 par2 head2 r2 hr2)
        (fun off2 len2 kid2 par2 head2 hs2 hm2 hl2 =>
          dir_noFuel q L fuel off2 len2 kid2 par2 head2 hs2 hm2 hl2)
        _ 0 _ (by omega) hmod hcontra

theorem detect_blocks_fuel_sufficient_witness :
    (12 / 4 + 1 ≤ 4) ∧ detect_ieee1212_blocks 4 qTiny 12 ≠ .outOfFuel :=
  ⟨by norm_num, detect_blocks_fuel_sufficient qTiny 12 4 (by norm_num)⟩

-- Normalization produces a Fits list; orphan filling turns a Fits list
-- into an exact tiling.

lemma normalize_head_offset (L : Nat) (b : Ieee1212Block) (t : List Ieee1212Block) :
    ∃ b' t', normalize_blocks L (b :: t) = b' :: t' ∧ b'.offset = b.offset ∧
      t' = normalize_blocks L t := by
  simp only [normalize_blocks]
  refine ⟨_, _, rfl, ?_, rfl⟩
  split_ifs <;> rfl

lemma normalize_singleton (L : Nat) (b : Ieee1212Block) :
    normalize_blocks L [b] =
      [if L < b.offset + b.length then { b with length := L - b.offset } else b] := rfl

lemma normalize_cons (L : Nat) (b b2 : Ieee1212Block) (t2 : List Ieee1212Block) :
    normalize_blocks L (b :: b2 :: t2) =
      (if b2.offset < b.offset + b.length then { b with length := b2.offset - b.offset }
       else b) :: normalize_blocks L (b2 :: t2) := rfl

lemma normalize_fits (L : Nat) :
    ∀ l : List Ieee1212Block, l.Pairwise (fun a c => a.offset < c.offset) →
      (∀ x ∈ l, x.offset < L ∧ 0 < x.length) → Fits L (normalize_blocks L l) := by
  intro l
  induction l with
  | nil =>
    intro _ _
    simp [normalize_blocks, Fits]
  | cons b t ih =>
    intro hp hb
    rcases List.pairwise_cons.mp hp with ⟨hbt, hp2⟩
    rcases hb b (List.mem_cons_self b t) with ⟨hbo, hbl⟩
    cases t with
    | nil =>
      rw [normalize_singleton]
      split_ifs with hc
      · exact ⟨by simp; omega, by simp; omega, by simp; omega⟩
      · exact ⟨by omega, hbl, hbo⟩
    | cons b2 t2 =>
      have hfits2 := ih hp2 (fun x hx => hb x (List.mem_cons_of_mem b hx))
      rcases normalize_head_offset L b2 t2 with ⟨b2', t2', heq, hoff, _⟩
      have hbb2 : b.offset < b2.offset := hbt b2 (List.mem_cons_self b2 t2)
      rw [normalize_cons, heq]
      rw [heq] at hfits2
      simp only [Fits]
      split_ifs with hc
      · exact ⟨by simp [hoff]; omega, by simp; omega, hfits2⟩
      · exact ⟨by rw [hoff]; omega, hbl, hfits2⟩

lemma tilesB_cons (s L : Nat) (b : Ieee1212Block) (bs : List Ieee1212Block) :
    tilesB s L (b :: bs) = ((b.offset == s) && tilesB (b.offset + b.length) L bs) := rfl

lemma fulfill_tiles (L : Nat) :
    ∀ (t : List Ieee1212Block) (b : Ieee1212Block), Fits L (b :: t) →
      tilesB b.offset L (fulfill_orphan_blocks L (b :: t)) = true ∧
      ∀ x ∈ fulfill_orphan_blocks L (b :: t), 0 < x.length := by
  intro t
  induction t with
  | nil =>
    intro b hf
    simp only [Fits] at hf
    rcases hf with ⟨hle, hlen, hlt⟩
    simp only [fulfill_orphan_blocks]
    split_ifs with hc
    · constructor
      · simp only [tilesB_cons, tilesB, Bool.and_eq_true, beq_iff_eq, true_and]
        omega
      · intro x hx
        rcases List.mem_singleton.mp hx with hx
        subst hx
        exact hlen
    · constructor
      · simp only [tilesB_cons, tilesB, Bool.and_eq_true, beq_iff_eq, true_and]
        omega
      · intro x hx
        rcases List.mem_cons.mp hx with hx | hx
        · subst hx; exact hlen
        · rcases List.mem_singleton.mp hx with hx
          subst hx
          show 0 < L - (b.offset + b.length)
          omega
  | cons b2 t2 ih =>
    intro b hf
    simp only [Fits] at hf
    rcases hf with ⟨hle, hlen, hf2⟩
    have hih := ih b2 hf2
    simp only [fulfill_orphan_blocks]
    split_ifs with hc
    · constructor
      · simp only [tilesB_cons, Bool.and_eq_true, beq_iff_eq, true_and]
        have heq2 : b.offset + b.length = b2.offset := by omega
        rw [heq2]
        exact hih.1
      · intro x hx
        rcases List.mem_cons.mp hx with hx | hx
        · subst hx; exact hlen
        · exact hih.2 x hx
    · constructor
      · simp only [tilesB_cons, Bool.and_eq_true, beq_iff_eq, true_and]
        have heq2 : b.offset + b.length + (b2.offset - (b.offset + b.length)) = b2.offset := by
          omega
        rw [heq2]
        exact hih.1
      · intro x hx
        rcases List.mem_cons.mp hx with hx | hx
        · subst hx; exact hlen
        · rcases List.mem_cons.mp hx with hx | hx
          · subst hx
            show 0 < b2.offset - (b.offset + b.length)
            omega
          · exact hih.2 x hx

lemma tilesB_lower_bound (L : Nat) :
    ∀ (l : List Ieee1212Block) (s : Nat), tilesB s L l = true → ∀ x ∈ l, s ≤ x.offset := by
  intro l
  induction l with
  | nil =>
    intro s _ x hx
    exact absurd hx (List.not_mem_nil x)
  | cons b t ih =>
    intro s ht x hx
    simp only [tilesB_cons, Bool.and_eq_true, beq_iff_eq] at ht
    rcases ht with ⟨hbo, ht⟩
    rcases List.mem_cons.mp hx with hx | hx
    · subst hx; omega
    · have := ih (b.offset + b.length) ht x hx
      omega

lemma tilesB_ascending (L : Nat) :
    ∀ (l : List Ieee1212Block) (s : Nat), tilesB s L l = true → (∀ x ∈ l, 0 < x.length) →
      l.Pairwise (fun a c => a.offset < c.offset) := by
  intro l
  induction l with
  | nil =>
    intro s _ _
    exact List.Pairwise.nil
  | cons b t ih =>
    intro s ht hlen
    simp only [tilesB_cons, Bool.and_eq_true, beq_iff_eq] at ht
    rcases ht with ⟨hbo, ht⟩
    refine List.pairwise_cons.mpr ⟨?_, ?_⟩
    · intro x hx
      have := tilesB_lower_bound L t (b.offset + b.length) ht x hx
      have := hlen b (List.mem_cons_self b t)
      omega
    · exact ih (b.offset + b.length) ht (fun x hx => hlen x (List.mem_cons_of_mem b hx))

/-- The full pipeline invariant used by the claims about tiling and
uniqueness: discovery success yields a tiling of `[0, L)` in strictly
ascending order with positive lengths. -/
lemma detect_pipeline_tiles (q : Nat → Nat) (L fuel : Nat) (bs : List Ieee1212Block)
    (h : detect_ieee1212_blocks fuel q L = .ok bs) :
    tilesB 0 L (fulfill_orphan_blocks L (normalize_blocks L bs)) = true ∧
    (fulfill_orphan_blocks L (normalize_blocks L bs)).Pairwise
      (fun a c => a.offset < c.offset) := by
  rcases detect_blocks_good fuel q L bs h with ⟨⟨b, t, hbs, hb0⟩, hpair, hbound⟩
  subst hbs
  have hfits := normalize_fits L (b :: t) hpair hbound
  rcases normalize_head_offset L b t with ⟨b', t', heq, hoff, _⟩
  rw [heq] at hfits
  have htl := fulfill_tiles L t' b' hfits
  rw [heq]
  have h0 : b'.offset = 0 := by rw [hoff, hb0]
  constructor
  · rw [← h0]
    exact htl.1
  · exact tilesB_ascending L _ b'.offset htl.1 htl.2

/-- C1: whenever block discovery succeeds (with any recursion fuel),
normalization followed by orphan filling tiles `[0, L)` exactly — the
first block sits at offset 0, each block's offset is the previous
offset plus the previous length, and the last block ends at `L` — and
the resulting sequence is in strictly ascending offset order. -/
theorem detect_normalize_fulfill_tiles (q : Nat → Nat) (L fuel : Nat)
    (bs : List Ieee1212Block) (h : detect_ieee1212_blocks fuel q L = .ok bs) :
    tilesB 0 L (fulfill_orphan_blocks L (normalize_blocks L bs)) = true ∧
    (fulfill_orphan_blocks L (normalize_blocks L bs)).Pairwise
      (fun a c => a.offset < c.offset) :=
  detect_pipeline_tiles q L fuel bs h

theorem detect_normalize_fulfill_tiles_witness :
    tilesB 0 12 (fulfill_orphan_blocks 12 (normalize_blocks 12
      [⟨0, 8, .busInfo, 0, none⟩, ⟨8, 4, .rootDirectory, 0, none⟩])) = true ∧
    (fulfill_orphan_blocks 12 (normalize_blocks 12
      [⟨0, 8, .busInfo, 0, none⟩, ⟨8, 4, .rootDirectory, 0, none⟩])).Pairwise
      (fun a c => a.offset < c.offset) :=
  detect_normalize_fulfill_tiles qTiny 12 5
    [⟨0, 8, .busInfo, 0, none⟩, ⟨8, 4, .rootDirectory, 0, none⟩] (by decide)

/-- C6: no two blocks of a successful discovery share an offset (and in
particular no two non-orphan blocks of the final normalized-and-filled
sequence do), and a leaf or directory detection whose offset is already
present leaves the block set unchanged — so a block referenced by
multiple directory entries is materialized exactly once, keeping the
`key_id` and `parent` stored by the first entry that discovered it. -/
theorem blocks_materialized_once (q : Nat → Nat) (L fuel : Nat)
    (bs : List Ieee1212Block) (h : detect_ieee1212_blocks fuel q L = .ok bs) :
    bs.Pairwise (fun a c => a.offset ≠ c.offset) ∧
    ((fulfill_orphan_blocks L (normalize_blocks L bs)).filter
      (fun b => !(b.block_type == .orphan))).Pairwise (fun a c => a.offset ≠ c.offset) ∧
    ∀ off len kid par (head : List Ieee1212Block), (∃ b ∈ head, b.offset = off) →
      detect_ieee1212_leaf_block off len kid par head = head ∧
      ∀ f, detect_ieee1212_directory_block (f + 1) q L off len kid par head = .ok head := by
  refine ⟨?_, ?_, ?_⟩
  · rcases detect_blocks_good fuel q L bs h with ⟨_, hpair, _⟩
    exact hpair.imp (fun hlt => Nat.ne_of_lt hlt)
  · have hpair := (detect_pipeline_tiles q L fuel bs h).2
    exact (hpair.imp (fun hlt => Nat.ne_of_lt hlt)).filter _
  · intro off len kid par head hmem
    have hany : head.any (fun e => e.offset == off) = true := by
      rcases hmem with ⟨b, hb, hbo⟩
      exact List.any_eq_true.mpr ⟨b, hb, by simp [hbo]⟩
    constructor
    · unfold detect_ieee1212_leaf_block
      rw [if_pos hany]
    · intro f
      simp only [detect_ieee1212_directory_block]
      rw [if_pos hany]

theorem blocks_materialized_once_witness :
    ([⟨0, 8, .busInfo, 0, none⟩, ⟨8, 4, .rootDirectory, 0, none⟩] :
        List Ieee1212Block).Pairwise (fun a c => a.offset ≠ c.offset) ∧
    detect_ieee1212_leaf_block 8 16 2 (some 0)
        [⟨0, 8, .busInfo, 0, none⟩, ⟨8, 4, .rootDirectory, 0, none⟩] =
      [⟨0, 8, .busInfo, 0, none⟩, ⟨8, 4, .rootDirectory, 0, none⟩] :=
  (fun H => ⟨H.1,
    (H.2.2 8 16 2 (some 0) [⟨0, 8, .busInfo, 0, none⟩, ⟨8, 4, .rootDirectory, 0, none⟩]
      ⟨⟨8, 4, .rootDirectory, 0, none⟩, by simp, rfl⟩).1⟩)
  (blocks_materialized_once qTiny 12 5
    [⟨0, 8, .busInfo, 0, none⟩, ⟨8, 4, .rootDirectory, 0, none⟩] (by decide))

/-- C5 counterexample: the unit directory of `qC5` contains immediate
`SPECIFIER_ID 0x00609e` and `VERSION 0x010483`, the pair is the
registered SBP-2 spec and `(IMMEDIATE, 0x3c)` is in SBP-2's formatter
table; yet because an immediate `VENDOR_INFO` entry occurs first in the
accumulation scan, the accumulated identifier is `(1, 0x010483)`, no
spec matches, and the `0x3c` entry of that very directory renders with
no spec-name prefix at all. -/
theorem spec_propagation_counterexample :
    decode_directory_entry (readQ qC5 24) = (0, 0x12, 0x00609e) ∧
    decode_directory_entry (readQ qC5 28) = (0, 0x13, 0x010483) ∧
    decode_directory_entry (readQ qC5 32) = (0, 0x3c, 0) ∧
    (spec_entries.find? (fun e => e.identifier ==
      (⟨0x00609e, 0x010483⟩ : SpecIdentifier))).map (fun e => e.spec_name) = some "SBP-2" ∧
    (find_formatter incits_sbp_key_formatters 0 0x3c).isSome = true ∧
    detect_ieee1212_blocks 5 qC5 36 = .ok bsC5 ∧
    fulfill_orphan_blocks 36 (normalize_blocks 36 bsC5) = bsC5 ∧
    format_directory_block_identifier qC5 bsC5 ⟨16, 20, .directory, 0x11, some 8⟩ =
      some ⟨1, 0x010483⟩ ∧
    (detect_key_formatter ⟨1, 0x010483⟩ 0 0x3c).2 = none ∧
    format_directory_entry_line ⟨1, 0x010483⟩ 16 4 (readQ qC5 32) =
      "420  3c000000  (immediate value)" ∧
    ¬ List.IsInfix "SBP-2".data "420  3c000000  (immediate value)".data := by
  refine ⟨by decide, by decide, by decide, ?_, by decide, by decide, by decide, by decide,
    by decide, ?_, by decide⟩
  · rfl
  · rfl

/-- C5 (amended): if the spec identifier accumulated for a rendered
directory block matches a registered spec and the entry's
`(key_type, key_id)` pair is in that spec's formatter table, then
`detect_key_formatter` binds that spec's display name and every entry
renderer prepends it (followed by a space) to the rendered entry.
Propagation to descendants holds exactly when no closer
`SPECIFIER_ID`/`VERSION`/`VENDOR_INFO` occurrence overrides the
accumulation, as the counterexample shows. -/
theorem spec_prefix_of_accumulated_identifier
    (q : Nat → Nat) (bs : List Ieee1212Block) (dir : Ieee1212Block)
    (identifier : SpecIdentifier) (se : SpecEntry) (f : KeyFormatter) (kt kid : Nat)
    (_hacc : format_directory_block_identifier q bs dir = some identifier)
    (hse : spec_entries.find? (fun e => e.identifier == identifier) = some se)
    (hf : find_formatter se.formatters kt kid = some f) :
    (detect_key_formatter identifier kt kid).2 = some se.spec_name ∧
    format_entry_spec_name (detect_key_formatter identifier kt kid).2 =
      se.spec_name ++ " " := by
  have h1 : detect_key_formatter identifier kt kid = (f, some se.spec_name) := by
    unfold detect_key_formatter
    rw [hse]
    show (match find_formatter se.formatters kt kid with
          | some f => (f, some se.spec_name)
          | none => detect_key_formatter_fallback kt kid) = (f, some se.spec_name)
    rw [hf]
  rw [h1]
  exact ⟨rfl, rfl⟩

theorem spec_prefix_of_accumulated_identifier_witness :
    (detect_key_formatter ⟨0x00609e, 0x010483⟩ 0 0x14).2 = some "SBP-2" ∧
    format_entry_spec_name (detect_key_formatter ⟨0x00609e, 0x010483⟩ 0 0x14).2 =
      "SBP-2 " :=
  spec_prefix_of_accumulated_identifier qC8 bsC8 ⟨16, 16, .directory, 0x11, some 8⟩
    ⟨0x00609e, 0x010483⟩ ⟨"SBP-2", ⟨0x00609e, 0x010483⟩, incits_sbp_key_formatters⟩
    ⟨0, 0x14, "logical unit number", some format_sbp_logical_unit_number_immediate_value⟩
    0 0x14 (by decide) (by rfl) (by rfl)

/-- C8 counterexample: for the input `qC8` — whose unit directory
contains immediate `SPECIFIER_ID 0x00609e`, `VERSION 0x010483` and a
key-`0x14` immediate `0x000000` — the rendered line for that entry is
`"41c  14000000  SBP-2 logical unit number:  ordered 0,type Disk,"`
(two spaces after the colon, no space between the comma and `type`),
so it does NOT include the claimed text
`"SBP-2 logical unit number: ordered 0, type Disk,"`. -/
theorem sbp2_lun_line_counterexample :
    detect_ieee1212_blocks 5 qC8 32 = .ok bsC8 ∧
    fulfill_orphan_blocks 32 (normalize_blocks 32 bsC8) = bsC8 ∧
    format_directory_block_identifier qC8 bsC8 ⟨16, 16, .directory, 0x11, some 8⟩ =
      some ⟨0x00609e, 0x010483⟩ ∧
    format_directory_entry_line ⟨0x00609e, 0x010483⟩ 16 3 (readQ qC8 28) =
      "41c  14000000  SBP-2 logical unit number:  ordered 0,type Disk," ∧
    ¬ List.IsInfix "SBP-2 logical unit number: ordered 0, type Disk,".data
        "41c  14000000  SBP-2 logical unit number:  ordered 0,type Disk,".data := by
  refine ⟨by decide, by decide, by decide, by decide, by decide⟩

/-- C8 (amended): for that input the rendered line for the logical
unit number entry includes the text
`"SBP-2 logical unit number:  ordered 0,type Disk,"` — the spec-name
prefix, the key name, then the content with two spaces after the colon
and no space between the comma and `type`. -/
theorem sbp2_lun_line_exact :
    format_directory_entry_line ⟨0x00609e, 0x010483⟩ 16 3 (readQ qC8 28) =
      "41c  14000000  SBP-2 logical unit number:  ordered 0,type Disk," ∧
    List.IsInfix "SBP-2 logical unit number:  ordered 0,type Disk,".data
      (format_directory_entry_line ⟨0x00609e, 0x010483⟩ 16 3 (readQ qC8 28)).data := by
  refine ⟨by decide, by decide⟩
